import Mathlib

/-!
# mg-nexus: search history, engagement score and result normalisation

A shallow embedding of the bookkeeping code of `src/App.js` (platform registry, search,
result normalisation, search history, network overview, number formatting) and of
`src/components/ProfileStats.js` (engagement score, audience size), with the helpers
`formatNumber` and `formatDuration` of `src/components/ProfileCard.js`.

Conventions of the embedding:

* JavaScript arrays are `List`s; `undefined` / `null` are `none`. The one place of the
  embedded code that tells a `null` follower count from an absent one is the Audience Size
  row; the flag
  `followersNull` of a profile marks a `followers` field that is present with value `null`.
* Numeric profile fields (`followers`, `public_repos`, ...) are counts: they are
  embedded as `Int`, so every statement below is about integer-valued numbers
  (no `NaN`, no fractions).
* JavaScript truthiness is explicit: a number is truthy when it is not `0`
  (written `followers != 0` after the match on the optional field), a string when
  it is not `""` (`truthyStr`), an absent field never.
* `Object.entries(data)` is the list of key/value pairs of the payload, in the
  key order of the object.
* Quotients of such integers are exact rationals: `Math.round(x)` is `⌊x + 1/2⌋`, and
  `toFixed(1)` rounds to the nearest tenth; only where the exact quotient lies half-way
  between two tenths does the binary representation decide, and the direction is a
  parameter (`tie`) of `formatNumber`. From `10^21` on `toFixed` prints exponent notation,
  whose significant digits are a parameter (`sci`) as well. Rounding to tenths fits integers
  that JavaScript represents exactly (below `2^53`), and the statements on it carry that
  bound.
* `performSearch` is taken from its call to the moment the request has settled; what the
  request comes to is an argument (`FetchOutcome`). `performSearch` is the run in which
  `localStorage.setItem` returns; `performSearchStoring` also covers the run in which it
  throws (`StoreOutcome`).
* The string stored under the key `searchHistory` is told apart by what `JSON.parse` makes
  of it (`StoredValue`). That `JSON.parse` returns the ledger `h` on `JSON.stringify(h)` is
  a property of the two built-in functions; where a statement needs it, it is a hypothesis.
-/

namespace MgNexus

/-! ## Data model -/

/-- Entry of the search history, as built in `performSearch` (App.js, lines 177-181). -/
structure HistoryEntry where
  term : String
  timestamp : String
  platforms : List String
  deriving DecidableEq, Repr

/-- Entry of the `PLATFORMS` table (App.js, lines 27-77); `icon` names the icon component. -/
structure Platform where
  name : String
  icon : String
  color : String
  apiEndpoint : String
  searchUrl : String
  deriving DecidableEq, Repr

/-- Profile payload of the backend: a bag of optional fields. Only the fields read by the
scoring code are kept. A field that is `none` is absent or `null`; `followersNull` says that
`followers` is present with the value `null` (it is read only when `followers` is `none`). -/
structure Profile where
  username : Option String := none
  name : Option String := none
  bio : Option String := none
  avatar_url : Option String := none
  followers : Option Int := none
  public_repos : Option Int := none
  tweets : Option Int := none
  likes : Option Int := none
  followersNull : Bool := false
  deriving DecidableEq, Repr

/-! ## JavaScript primitives used by the code -/

/-- Truthiness of an optional string: present and not empty. -/
def truthyStr : Option String → Bool
  | some s => s != ""
  | none => false

/-- `Array.prototype.findIndex`: index of the first element satisfying `p`, else `-1`. -/
def findIndex {α : Type} (p : α → Bool) : List α → Int
  | [] => -1
  | x :: xs => if p x then 0 else (if findIndex p xs = -1 then -1 else findIndex p xs + 1)

/-- `Array.prototype.splice(start, 1)`: delete one element at `start`
(a negative `start` counts from the end, as in JavaScript). -/
def splice1 {α : Type} (l : List α) (start : Int) : List α :=
  if start < 0 then l.eraseIdx (max ((l.length : Int) + start) 0).toNat
  else l.eraseIdx start.toNat

/-- `Array.prototype.pop`: drop the last element. -/
def pop {α : Type} (l : List α) : List α := l.dropLast

/-- `Array.prototype.unshift`: add an element at the front. -/
def unshift {α : Type} (x : α) (l : List α) : List α := x :: l

/-! ## History ledger (`performSearch`, App.js lines 169-187) -/

/-- History update of `performSearch`: `searchHistory` is the ledger held in memory,
`searchTerm` the term searched, `timestamp` the value of `new Date().toISOString()` and
`platformNames` the value of `platformsToSearch.map(p => p.name)`.
The result is `newHistory`, the value stored in memory and in `localStorage`. -/
def updateSearchHistory (searchHistory : List HistoryEntry) (searchTerm timestamp : String)
    (platformNames : List String) : List HistoryEntry :=
  let newHistory := searchHistory
  let existingIndex := findIndex (fun item => item.term == searchTerm) newHistory
  let newHistory := if existingIndex ≠ -1 then splice1 newHistory existingIndex else newHistory
  let newHistory :=
    unshift { term := searchTerm, timestamp := timestamp, platforms := platformNames } newHistory
  let newHistory := if newHistory.length > 10 then pop newHistory else newHistory
  newHistory

/-- Ledger reached from the empty ledger after the searches `events`, oldest first
(each event gives the term, the timestamp and the platform names of one search). -/
def recordAll (events : List HistoryEntry) : List HistoryEntry :=
  events.foldl (fun h e => updateSearchHistory h e.term e.timestamp e.platforms) []

/-- Terms of a ledger, in order. -/
def terms (h : List HistoryEntry) : List String := h.map (fun e => e.term)

/-- Keep only the first occurrence of each term. -/
def firstOccurrences : List String → List String
  | [] => []
  | x :: xs => x :: (firstOccurrences xs).filter (fun y => y != x)

/-! ## Platform registry (App.js lines 27-77) -/

/-- Table `PLATFORMS` of App.js. -/
def PLATFORMS : List Platform :=
  [ { name := "LinkedIn", icon := "Linkedin", color := "#0077B5",
      apiEndpoint := "linkedin", searchUrl := "https://www.linkedin.com/in/" },
    { name := "Twitter", icon := "Twitter", color := "#1DA1F2",
      apiEndpoint := "twitter", searchUrl := "https://twitter.com/" },
    { name := "GitHub", icon := "Github", color := "#333",
      apiEndpoint := "github", searchUrl := "https://github.com/" },
    { name := "Instagram", icon := "Instagram", color := "#E1306C",
      apiEndpoint := "instagram", searchUrl := "https://www.instagram.com/" },
    { name := "Reddit", icon := "MessageCircle", color := "#FF4500",
      apiEndpoint := "reddit", searchUrl := "https://www.reddit.com/user/" },
    { name := "TikTok", icon := "Video", color := "#000000",
      apiEndpoint := "tiktok", searchUrl := "https://www.tiktok.com/@" },
    { name := "Spotify", icon := "Music", color := "#1DB954",
      apiEndpoint := "spotify", searchUrl := "https://open.spotify.com/artist/" } ]

/-- Lookup `PLATFORMS.find(p => p.apiEndpoint === key)` (App.js line 157). -/
def findByEndpoint (key : String) : Option Platform :=
  PLATFORMS.find? (fun p => p.apiEndpoint == key)

/-! ## Engagement score (ProfileStats.js lines 7-29) -/

/-- Function `calculateEngagementScore` of ProfileStats.js, with the component's props
`profile` and `platform` as arguments. -/
def calculateEngagementScore (profile : Profile) (platform : Platform) : Int :=
  let score : Int := 0
  let score :=
    match profile.followers with
    | some followers =>
      if followers != 0 then
        if followers < 1000 then score + 10
        else if followers < 10000 then score + 30
        else if followers < 100000 then score + 50
        else score + 70
      else score
    | none => score
  let score := if truthyStr profile.name then score + 5 else score
  let score := if truthyStr profile.bio then score + 10 else score
  let score := if truthyStr profile.avatar_url then score + 5 else score
  let score :=
    match profile.public_repos with
    | some public_repos =>
      if platform.name == "GitHub" && public_repos != 0 then score + min (public_repos * 2) 20
      else score
    | none => score
  min score 100

/-- Follower-bracket base as the specification words it: `<1000 → 10`, `[1000,10000) → 30`,
`[10000,100000) → 50`, `≥100000 → 70`, and `0` when followers is absent. -/
def specBracketBase : Option Int → Int
  | none => 0
  | some f => if f < 1000 then 10 else if f < 10000 then 30 else if f < 100000 then 50 else 70

/-- Follower-bracket base as the code computes it: a follower count of `0` is falsy and
contributes nothing. -/
def codeBracketBase : Option Int → Int
  | none => 0
  | some f =>
    if f = 0 then 0
    else if f < 1000 then 10 else if f < 10000 then 30 else if f < 100000 then 50 else 70

/-- GitHub bonus as the specification words it: `min(public_repos * 2, 20)` when the platform
is GitHub and `public_repos` is present, `0` otherwise. -/
def specRepoBonus (profile : Profile) (platform : Platform) : Int :=
  match profile.public_repos with
  | some r => if platform.name = "GitHub" then min (r * 2) 20 else 0
  | none => 0

/-- Indicator `[b]`: `1` when `b` holds, else `0`. -/
def ind (b : Bool) : Int := if b then 1 else 0

/-! ## Result normaliser (`formattedResults`, App.js lines 155-165) -/

/-- Value of one key of the backend payload: `{exists, profile?}`. -/
structure BackendValue where
  «exists» : Bool
  profile : Option Profile := none
  deriving DecidableEq, Repr

/-- Field `params` of a result record. -/
structure Params where
  username : String
  deriving DecidableEq, Repr

/-- Record built by `performSearch` for one key of the payload; `platform` is `none` when
`PLATFORMS.find` returned `undefined`. -/
structure SearchResult where
  platform : Option Platform
  «exists» : Bool
  profile : Option Profile
  params : Params
  deriving DecidableEq, Repr

/-- Value `formattedResults` of `performSearch`: `data` is `Object.entries(data)`. -/
def formattedResults (data : List (String × BackendValue)) (searchTerm : String) :
    List SearchResult :=
  data.map (fun kv =>
    let key := kv.1
    let value := kv.2
    let platform := findByEndpoint key
    { platform := platform,
      «exists» := value.exists,
      profile := if value.exists then value.profile else none,
      params := { username := searchTerm } })

/-- Position of a platform in the registry. -/
def registryIndex (p : Platform) : Nat := PLATFORMS.indexOf p

/-- Platforms of a result list, in order, leaving out the records without one. -/
def resultPlatforms (rs : List SearchResult) : List Platform := rs.filterMap (fun r => r.platform)

/-- Result list in Platform Registry order: the registry positions of its platforms never
decrease. -/
def InRegistryOrder (rs : List SearchResult) : Prop :=
  ((resultPlatforms rs).map registryIndex).Pairwise (fun i j => i ≤ j)

instance (rs : List SearchResult) : Decidable (InRegistryOrder rs) := by
  unfold InRegistryOrder; infer_instance

/-! ## Registry lookups and platform selection (App.js lines 139-147, 416) -/

/-- Lookup `PLATFORMS.find(p => p.name === platform)` (App.js line 416). -/
def findByName (name : String) : Option Platform :=
  PLATFORMS.find? (fun p => p.name == name)

/-- Value `platformsToSearch` of `performSearch` (App.js lines 140-142). -/
def platformsToSearch (selectedPlatforms : List String) : List Platform :=
  if selectedPlatforms.length > 0 then
    PLATFORMS.filter (fun p => selectedPlatforms.contains p.name)
  else PLATFORMS

/-- Value `platformParams` of `performSearch` (App.js line 144): `join(',')` of the
endpoint keys. -/
def platformParams (selectedPlatforms : List String) : String :=
  String.intercalate "," ((platformsToSearch selectedPlatforms).map (fun p => p.apiEndpoint))

/-- Constant `API_URL` of App.js. -/
def API_URL : String := "http://localhost:5000/api"

/-- URL fetched by `performSearch` (App.js line 147). -/
def searchUrl (searchTerm : String) (selectedPlatforms : List String) : String :=
  API_URL ++ "/search/" ++ searchTerm ++ "?platforms=" ++ platformParams selectedPlatforms

/-! ## Network overview (App.js lines 455-483 and 550-571) -/

/-- Comparison `x > k` of JavaScript for an optional number: `undefined > k` is `false`. -/
def jsGt (x : Option Int) (k : Int) : Bool :=
  match x with
  | some v => decide (v > k)
  | none => false

/-- Variable `engagementScore` of the Platform Engagement chart (App.js lines 455-483),
computed for one result of `searchResults.filter(result => result.exists)`. The value `none`
stands for the `TypeError` raised by `result.platform.name` when the profile is present and
`platform` is `undefined`. -/
def engagementScore (result : SearchResult) : Option Int :=
  let score : Int := 0
  match result.profile with
  | none => some score
  | some profile =>
    match result.platform with
    | none => none
    | some platform =>
      let score :=
        match profile.followers with
        | some followers =>
          if followers != 0 then
            if followers < 1000 then 20
            else if followers < 10000 then 40
            else if followers < 100000 then 60
            else 80
          else score
        | none => score
      let score :=
        if platform.name == "GitHub" && jsGt profile.public_repos 20 then score + 20 else score
      let score :=
        if platform.name == "Twitter" && jsGt profile.tweets 1000 then score + 15 else score
      let score :=
        if platform.name == "TikTok" && jsGt profile.likes 10000 then score + 25 else score
      some (min score 100)

/-- Predicate `result.exists && result.profile && result.profile.followers` of the Total
Followers filter (App.js line 552). -/
def hasFollowers (result : SearchResult) : Bool :=
  result.exists &&
    (match result.profile with
     | some profile =>
       (match profile.followers with
        | some followers => followers != 0
        | none => false)
     | none => false)

/-- Value `result.profile.followers` read by the `reduce` callback (App.js line 553); the
filter before it only lets results through whose profile and followers are present, the other
branches are never taken. -/
def followersOf (result : SearchResult) : Int :=
  match result.profile with
  | some profile =>
    (match profile.followers with
     | some followers => followers
     | none => 0)
  | none => 0

/-- Argument of `formatNumber` in the Total Followers tile (App.js lines 551-553). -/
def totalFollowers (searchResults : List SearchResult) : Int :=
  (searchResults.filter hasFollowers).foldl (fun sum result => sum + followersOf result) 0

/-- Numerator of the Platforms Used tile: `searchResults.filter(result => result.exists).length`
(App.js line 561). -/
def platformsFound (searchResults : List SearchResult) : Nat :=
  (searchResults.filter (fun result => result.exists)).length

/-- `Math.round`: the nearest integer, a tie going up. Numbers are exact rationals here. -/
def mathRound (x : ℚ) : Int := ⌊x + 1 / 2⌋

/-- Digital Presence Score (App.js lines 568-570). -/
def digitalPresenceScore (searchResults : List SearchResult) : Int :=
  mathRound (((platformsFound searchResults : ℚ) / (PLATFORMS.length : ℚ)) * 100)

/-- One bar of the Platform Engagement chart (App.js lines 455-505): the score and the name
of the platform. The bar reads `result.platform.icon`, `result.platform.color` and
`result.platform.name`, so it raises a `TypeError` (`none`) when `platform` is `undefined`,
with or without a profile. -/
def engagementBar (result : SearchResult) : Option (String × Int) :=
  match engagementScore result with
  | none => none
  | some score =>
    match result.platform with
    | none => none
    | some platform => some (platform.name, score)

/-- Bars of a list of results, `none` when one of them throws. -/
def engagementBars : List SearchResult → Option (List (String × Int))
  | [] => some []
  | result :: rest =>
    match engagementBar result with
    | none => none
    | some bar => (engagementBars rest).map (fun bars => bar :: bars)

/-- The Platform Engagement chart: the bars of `searchResults.filter(result => result.exists)`.
-/
def platformEngagementChart (searchResults : List SearchResult) : Option (List (String × Int)) :=
  engagementBars (searchResults.filter (fun result => result.exists))

/-- Digital Presence Score as the network tab shows it (App.js lines 448-571): the tab renders
the analysis only for a non-empty result list, and the Platform Engagement chart is evaluated
before the score in the same render, so the score is computed only when the chart does not
throw (the Audience Distribution between them reads the platform of found results only).
`none` when no score is computed. -/
def networkOverviewScore (searchResults : List SearchResult) : Option Int :=
  if searchResults.length > 0 then
    match platformEngagementChart searchResults with
    | none => none
    | some _ => some (digitalPresenceScore searchResults)
  else none

/-- Sum of `followers` over the results with `exists = true` whose followers is present, as
the specification words the Total Followers figure. -/
def specTotalFollowers (searchResults : List SearchResult) : Int :=
  ((searchResults.filter (fun r => r.exists)).filterMap
    (fun r => r.profile.bind (fun p => p.followers))).sum

/-- Network-overview base as the specification words it: `20/40/60/80` for follower counts
`<1000 / <10000 / <100000 / ≥100000`. -/
def specNetworkBase (f : Int) : Int :=
  if f < 1000 then 20 else if f < 10000 then 40 else if f < 100000 then 60 else 80

/-- Network-overview base as the code computes it: nothing for an absent or zero count. -/
def codeNetworkBase : Option Int → Int
  | none => 0
  | some f => if f = 0 then 0 else specNetworkBase f

/-- Network-overview bonus as the specification words it: 20 for GitHub with
`public_repos > 20`, 15 for Twitter with `tweets > 1000`, 25 for TikTok with `likes > 10000`,
0 otherwise. -/
def specNetworkBonus (profile : Profile) (platform : Platform) : Int :=
  if platform.name = "GitHub" ∧ jsGt profile.public_repos 20 = true then 20
  else if platform.name = "Twitter" ∧ jsGt profile.tweets 1000 = true then 15
  else if platform.name = "TikTok" ∧ jsGt profile.likes 10000 = true then 25
  else 0

/-! ## Audience size (ProfileStats.js lines 53-62) -/

/-- Label of the Audience Size row; `none` when the row is not rendered
(`profile.followers !== undefined` fails). A `null` follower count passes that guard, every
comparison `null > k` is false, and the label is `Small`. -/
def audienceSize (profile : Profile) : Option String :=
  match profile.followers with
  | none => if profile.followersNull then some "Small" else none
  | some followers =>
    some (if followers > 100000 then "Very Large"
      else if followers > 10000 then "Large"
      else if followers > 1000 then "Medium"
      else "Small")

/-- Audience tier as the specification words it: `≤1000 → Small`, `≤10000 → Medium`,
`≤100000 → Large`, else `Very Large`. -/
def specAudienceTier (f : Int) : String :=
  if f ≤ 1000 then "Small" else if f ≤ 10000 then "Medium" else if f ≤ 100000 then "Large"
  else "Very Large"

/-! ## Number formatting (`formatNumber`, App.js lines 80-89) -/

/-- `(num / d).toFixed(1)` for `0 ≤ num` and `0 < d`. A quotient of at least `10^21` is
printed as `Number.prototype.toString` prints it, in exponent notation: the significant digits
`mantissa` (`1` or `1.2379400392853803`, taken from the binary representation), `e+` and the
decimal exponent. A smaller quotient is rounded to the nearest tenth and printed with one
decimal; when the exact quotient lies half-way between two tenths, the digit printed depends
on the binary representation of the quotient, and `roundsUp` says whether it goes up. -/
def toFixed1 (roundsUp : Bool) (mantissa : String) (num d : Int) : String :=
  if num ≥ 10 ^ 21 * d then
    mantissa ++ "e+" ++ toString ((toString (num / d)).length - 1)
  else
    let tenths := (10 * num) / d
    let rest := (10 * num) % d
    let n :=
      if 2 * rest > d then tenths + 1
      else if 2 * rest < d then tenths
      else if roundsUp then tenths + 1 else tenths
    toString (n / 10) ++ "." ++ toString (n % 10)

/-- Function `formatNumber` of App.js. `tie num d` is the direction `toFixed` takes for the
quotient `num / d` when it lies half-way between two tenths, and `sci num d` the significant
digits it prints when the quotient is at least `10^21`. An absent value is falsy and is
not `0`, so it gives `Unknown`; a present number passes the guard. -/
def formatNumber (tie : Int → Int → Bool) (sci : Int → Int → String) (num : Option Int) :
    String :=
  match num with
  | none => "Unknown"
  | some num =>
    if (num == 0) && (num != 0) then "Unknown"
    else if num ≥ 1000000 then
      toFixed1 (tie num 1000000) (sci num 1000000) num 1000000 ++ "M"
    else if num ≥ 1000 then toFixed1 (tie num 1000) (sci num 1000) num 1000 ++ "K"
    else toString num

/-- String `s` is the quotient `num / d` rounded to one decimal: it prints `m / 10` for an
integer `m` with `|num / d - m / 10| ≤ 1 / 20`. -/
def IsRoundedToOneDecimal (num d : Int) (s : String) : Prop :=
  ∃ m : Int, 2 * |10 * num - m * d| ≤ d ∧ s = toString (m / 10) ++ "." ++ toString (m % 10)

/-! ## The search (`performSearch`, App.js lines 132-201) -/

/-- State variable `apiStatus`. -/
inductive ApiStatus where
  | unknown
  | online
  | offline
  deriving DecidableEq, Repr

/-- State of the `App` component read or written by `performSearch`; `storedHistory` is the
ledger whose `JSON.stringify` is stored under the key `searchHistory` (`none` when the key is
not set). -/
structure AppState where
  searchTerm : String
  selectedPlatforms : List String
  searchResults : List SearchResult
  searchHistory : List HistoryEntry
  isSearching : Bool
  error : Option String
  apiStatus : ApiStatus
  storedHistory : Option (List HistoryEntry)
  deriving DecidableEq, Repr

/-- What the backend request comes to: `failed message` when `fetch` or `response.json()`
rejects with an error of that message, `notOk status` when `response.ok` is false, and
`resolved data` when `response.json()` resolves to the object with entries `data` (a value
`none` is a `null` value of the payload). -/
inductive FetchOutcome where
  | failed (message : String)
  | notOk (status : Nat)
  | resolved (data : List (String × Option BackendValue))

/-- Message of the `TypeError` raised by `value.exists` on a `null` value. -/
def nullValueMessage : String := "Cannot read properties of null (reading 'exists')"

/-- Entries of a payload without `null` value, `none` when some value is `null`. -/
def wellFormedEntries :
    List (String × Option BackendValue) → Option (List (String × BackendValue))
  | [] => some []
  | (key, some value) :: rest => (wellFormedEntries rest).map (fun r => (key, value) :: r)
  | (_, none) :: _ => none

/-- Normalisation of a payload as `performSearch` runs it: the `map` of lines 156-165 raises a
`TypeError` when a value is `null`. -/
def normalise (data : List (String × Option BackendValue)) (searchTerm : String) :
    Except String (List SearchResult) :=
  match wellFormedEntries data with
  | some entries => .ok (formattedResults entries searchTerm)
  | none => .error nullValueMessage

/-- `String.prototype.includes`. -/
def includes (s sub : String) : Bool := decide (sub.toList <:+: s.toList)

/-- The `try` block of `performSearch` (App.js lines 138-188), run on the state `s` after
`setIsSearching(true)` and `setError(null)`, in a run in which `localStorage.setItem`
(line 187) returns: the new state, or the message of the error thrown. The run in which
`setItem` throws is `performSearchTryStoring`. -/
def performSearchTry (s : AppState) (timestamp : String) (response : FetchOutcome) :
    Except String AppState :=
  let platformNames := (platformsToSearch s.selectedPlatforms).map (fun p => p.name)
  match response with
  | .failed message => .error message
  | .notOk status => .error ("Server responded with status: " ++ toString status)
  | .resolved data =>
    match normalise data s.searchTerm with
    | .error message => .error message
    | .ok formatted =>
      let newHistory := updateSearchHistory s.searchHistory s.searchTerm timestamp platformNames
      .ok { s with searchResults := formatted,
                   searchHistory := newHistory,
                   storedHistory := some newHistory }

/-- The `catch` block of `performSearch` (App.js lines 189-197). -/
def performSearchCatch (s : AppState) (message : String) : AppState :=
  if includes message "Failed to fetch" || includes message "NetworkError" then
    { s with error := some "Cannot connect to the API server. Make sure the backend is running.",
             apiStatus := ApiStatus.offline }
  else
    { s with error := some ("Failed to search profiles: " ++ message) }

/-- Function `performSearch` of App.js, from the call to the moment the request has settled:
`timestamp` is the value of `new Date().toISOString()` and `response` what the request comes
to. The storage write of line 187 returns in this run; `performSearchStoring` is the function
for either outcome of the write. -/
def performSearch (s : AppState) (timestamp : String) (response : FetchOutcome) : AppState :=
  if s.searchTerm = "" then s
  else
    let s1 := { s with isSearching := true, error := none }
    let s2 :=
      match performSearchTry s1 timestamp response with
      | .ok s2 => s2
      | .error message => performSearchCatch s1 message
    { s2 with isSearching := false }

/-- What the call `localStorage.setItem('searchHistory', ...)` of `performSearch` (App.js
line 187) comes to: it returns, or it throws an error of the given message (a full or a
disabled storage). -/
inductive StoreOutcome where
  | written
  | throws (message : String)
  deriving DecidableEq, Repr

/-- The `try` block of `performSearch` statement by statement, for either outcome of the
storage write: the state after the block and the message of the error thrown, if any.
`setSearchResults` (line 167) and `setSearchHistory` (line 186) come before
`localStorage.setItem` (line 187), so a write that throws leaves the new results and the new
ledger in memory and the old value in the storage. -/
def performSearchTryStoring (store : StoreOutcome) (s : AppState) (timestamp : String)
    (response : FetchOutcome) : AppState × Option String :=
  let platformNames := (platformsToSearch s.selectedPlatforms).map (fun p => p.name)
  match response with
  | .failed message => (s, some message)
  | .notOk status => (s, some ("Server responded with status: " ++ toString status))
  | .resolved data =>
    match normalise data s.searchTerm with
    | .error message => (s, some message)
    | .ok formatted =>
      let s1 := { s with searchResults := formatted }
      let newHistory := updateSearchHistory s.searchHistory s.searchTerm timestamp platformNames
      let s2 := { s1 with searchHistory := newHistory }
      match store with
      | .written => ({ s2 with storedHistory := some newHistory }, none)
      | .throws message => (s2, some message)

/-- Function `performSearch` of App.js for either outcome of the storage write. -/
def performSearchStoring (store : StoreOutcome) (s : AppState) (timestamp : String)
    (response : FetchOutcome) : AppState :=
  if s.searchTerm = "" then s
  else
    let s1 := { s with isSearching := true, error := none }
    let s2 :=
      match performSearchTryStoring store s1 timestamp response with
      | (s2, none) => s2
      | (s2, some message) => performSearchCatch s2 message
    { s2 with isSearching := false }

/-- Request issued by `performSearch`: none for an empty term, else the URL fetched. -/
def requestOf (s : AppState) : Option String :=
  if s.searchTerm = "" then none else some (searchUrl s.searchTerm s.selectedPlatforms)

/-- Payload without `null` value, as `response.json()` returns it. -/
def payloadOf (entries : List (String × BackendValue)) : List (String × Option BackendValue) :=
  entries.map (fun kv => (kv.1, some kv.2))

/-- Message of the error thrown by the `try` block of `performSearch` called in the state `s`;
`none` when the block runs to its end. -/
def searchError (s : AppState) (timestamp : String) (response : FetchOutcome) : Option String :=
  match performSearchTry { s with isSearching := true, error := none } timestamp response with
  | .ok _ => none
  | .error message => some message

/-! ## Stored history: load and clear (App.js lines 101, 121-129 and 624-627) -/

/-- String stored under the key `searchHistory`, told apart by what `JSON.parse` makes of it:
`serialised history` is a string that `JSON.parse` reads as the ledger `history`; `otherJson raw`
parses to a value that is no array of history entries (such as `5`, `null` or an object);
`unparseable raw` makes `JSON.parse` throw. -/
inductive StoredValue where
  | serialised (history : List HistoryEntry)
  | otherJson (raw : String)
  | unparseable (raw : String)
  deriving DecidableEq, Repr

/-- Value of the state variable `searchHistory` after the load: a ledger, or the value that the
stored string `raw` parsed to when that is no ledger. -/
inductive HistoryState where
  | ledger (entries : List HistoryEntry)
  | foreign (raw : String)
  deriving DecidableEq, Repr

/-- Truthiness of the stored string (`if (savedHistory)`): only the empty string is falsy,
and the empty string cannot be parsed. -/
def StoredValue.truthy : StoredValue → Bool
  | .unparseable raw => raw != ""
  | _ => true

/-- `JSON.parse` on the stored string: the value, or the message of the `SyntaxError`. -/
def jsonParse : StoredValue → Except String HistoryState
  | .serialised history => .ok (HistoryState.ledger history)
  | .otherJson raw => .ok (HistoryState.foreign raw)
  | .unparseable raw => .error ("Unexpected token in JSON: " ++ raw)

/-- Load of the search history when the component mounts (App.js lines 121-129), starting
from the initial state `useState([])`; `savedHistory` is the value of
`localStorage.getItem('searchHistory')`, `none` for `null`. -/
def loadSearchHistory (savedHistory : Option StoredValue) : HistoryState :=
  let searchHistory := HistoryState.ledger []
  match savedHistory with
  | none => searchHistory
  | some saved =>
    if saved.truthy then
      match jsonParse saved with
      | .ok parsed => parsed
      | .error _ => searchHistory
    else searchHistory

/-- Value of `localStorage.getItem('searchHistory')` in the state `s`, the stored
serialisation taken as a string that `JSON.parse` reads back. -/
def storageOf (s : AppState) : Option StoredValue :=
  s.storedHistory.map StoredValue.serialised

/-- Handler of the button Clear Search History (App.js lines 624-627). -/
def clearSearchHistory (s : AppState) : AppState :=
  let s1 := { s with storedHistory := none }
  { s1 with searchHistory := [] }

/-! ## Platform toggle (App.js lines 262-268) -/

/-- Updater passed to `setSelectedPlatforms` by the button of the platform `name`. -/
def togglePlatform (prev : List String) (name : String) : List String :=
  if prev.contains name then prev.filter (fun p => p != name) else prev ++ [name]

/-! ## Helpers of ProfileCard.js (lines 10-26) -/

/-- Function `formatNumber` of ProfileCard.js, the second copy of the formatter. -/
def ProfileCard.formatNumber (tie : Int → Int → Bool) (sci : Int → Int → String)
    (num : Option Int) : String :=
  match num with
  | none => "Unknown"
  | some num =>
    if (num == 0) && (num != 0) then "Unknown"
    else if num ≥ 1000000 then
      toFixed1 (tie num 1000000) (sci num 1000000) num 1000000 ++ "M"
    else if num ≥ 1000 then toFixed1 (tie num 1000) (sci num 1000) num 1000 ++ "K"
    else toString num

/-- `String.prototype.padStart` with a pad string of one character. -/
def padStart (s : String) (targetLength : Nat) (pad : Char) : String :=
  if s.length < targetLength then
    String.mk (List.replicate (targetLength - s.length) pad) ++ s
  else s

/-- Function `formatDuration` of ProfileCard.js: `Math.floor` is the floor division and `%`
the remainder with the sign of the dividend. -/
def formatDuration (ms : Int) : String :=
  let minutes := Int.fdiv ms 60000
  let seconds := Int.fdiv (Int.tmod ms 60000) 1000
  toString minutes ++ ":" ++ padStart (toString seconds) 2 '0'

/-! ## Concrete inputs -/

/-- Entry with the given term, a fixed timestamp and the platform list `["GitHub"]`. -/
def entryOf (term : String) : HistoryEntry :=
  { term := term, timestamp := "2024-01-01T00:00:00.000Z", platforms := ["GitHub"] }

/-- Eleven searches with pairwise distinct terms, oldest first. -/
def elevenSearches : List HistoryEntry :=
  ["a", "b", "c", "d", "e", "f", "g", "h", "i", "j", "k"].map entryOf

/-- Ledger with three entries of distinct terms. -/
def smallLedger : List HistoryEntry := ["x", "y", "z"].map entryOf

/-- Ledger parsed from a stored value that holds eleven entries. -/
def storedElevenLedger : List HistoryEntry :=
  ["s0", "s1", "s2", "s3", "s4", "s5", "s6", "s7", "s8", "s9", "s10"].map entryOf

/-- Ledger parsed from a stored value that holds the term `octocat` twice. -/
def storedDuplicateLedger : List HistoryEntry := ["octocat", "octocat"].map entryOf

/-- The registry entry of GitHub. -/
def githubPlatform : Platform :=
  { name := "GitHub", icon := "Github", color := "#333",
    apiEndpoint := "github", searchUrl := "https://github.com/" }

/-- The registry entry of Twitter. -/
def twitterPlatform : Platform :=
  { name := "Twitter", icon := "Twitter", color := "#1DA1F2",
    apiEndpoint := "twitter", searchUrl := "https://twitter.com/" }

/-- Engagement score as the specification words it: the follower-bracket base, `+5`, `+10`,
`+5` for a present `name`, `bio`, `avatar_url`, the GitHub bonus, capped at 100. -/
def specEngagementScore (profile : Profile) (platform : Platform) : Int :=
  min 100 (specBracketBase profile.followers + 5 * ind profile.name.isSome +
    10 * ind profile.bio.isSome + 5 * ind profile.avatar_url.isSome +
    specRepoBonus profile platform)

/-- Payload `{github: {exists: true, profile: {...}}, twitter: {exists: false}}`, keys in
that order. -/
def githubTwitterPayload : List (String × BackendValue) :=
  [ ("github",
      { «exists» := true,
        profile := some { username := some "octocat", followers := some 5000,
                          public_repos := some 8 } }),
    ("twitter", { «exists» := false }) ]

/-- Payload `{twitter: {exists: false}, github: {exists: true, profile: {...}}}`, keys in
registry order. -/
def twitterGithubPayload : List (String × BackendValue) :=
  [ ("twitter", { «exists» := false }),
    ("github",
      { «exists» := true,
        profile := some { username := some "octocat", followers := some 5000,
                          public_repos := some 8 } }) ]

/-- Payload `{facebook: {exists: false}}`: its key is no registered endpoint. -/
def facebookPayload : List (String × BackendValue) :=
  [ ("facebook", { «exists» := false }) ]

/-- Payload `{github: {exists: false}, facebook: {exists: false}}`. -/
def githubFacebookPayload : List (String × BackendValue) :=
  [ ("github", { «exists» := false }), ("facebook", { «exists» := false }) ]

/-- Payload `{github: {exists: true, profile}, twitter: {exists: false}}`, keys in that
order, for an arbitrary GitHub profile. -/
def githubThenTwitter (profile : Profile) : List (String × BackendValue) :=
  [ ("github", { «exists» := true, profile := some profile }),
    ("twitter", { «exists» := false }) ]

/-- Record of a search for `username` that found nothing on Twitter. -/
def twitterNotFound (username : String) : SearchResult :=
  { platform := some twitterPlatform, «exists» := false, profile := none,
    params := { username := username } }

/-- Record of a search for `username` that found `profile` on GitHub. -/
def githubFound (profile : Profile) (username : String) : SearchResult :=
  { platform := some githubPlatform, «exists» := true, profile := some profile,
    params := { username := username } }

/-- Three results with followers 500, 1500, absent and `exists` true, true, false. -/
def reachExample : List SearchResult :=
  [ { platform := some githubPlatform, «exists» := true,
      profile := some { followers := some 500 }, params := { username := "octocat" } },
    { platform := some twitterPlatform, «exists» := true,
      profile := some { followers := some 1500 }, params := { username := "octocat" } },
    { platform := findByEndpoint "reddit", «exists» := false,
      profile := none, params := { username := "octocat" } } ]

/-- Results of a search restricted to GitHub and Twitter that found both. -/
def bothFound : List SearchResult :=
  [ { platform := some twitterPlatform, «exists» := true,
      profile := some { followers := some 1500 }, params := { username := "octocat" } },
    { platform := some githubPlatform, «exists» := true,
      profile := some { followers := some 500 }, params := { username := "octocat" } } ]

/-- Digital Presence Score as the specification words it:
`round(platformsFound / totalPlatforms * 100)`. -/
def specPresenceScore (platformsFound totalPlatforms : Nat) : Int :=
  mathRound (((platformsFound : ℚ) / (totalPlatforms : ℚ)) * 100)

/-- Record of an existing profile whose platform is `undefined` (unregistered key). -/
def unknownPlatformFound : SearchResult :=
  { platform := none, «exists» := true, profile := some { followers := some 500 },
    params := { username := "octocat" } }

/-- The registry entry of TikTok. -/
def tiktokPlatform : Platform :=
  { name := "TikTok", icon := "Video", color := "#000000",
    apiEndpoint := "tiktok", searchUrl := "https://www.tiktok.com/@" }

/-- Record of a TikTok profile with 200000 followers and 20000 likes. -/
def tiktokStar : SearchResult :=
  { platform := some tiktokPlatform, «exists» := true,
    profile := some { followers := some 200000, likes := some 20000 },
    params := { username := "octocat" } }

/-- State before the first search of `octocat`, no platform selected. -/
def freshState : AppState :=
  { searchTerm := "octocat", selectedPlatforms := [], searchResults := [],
    searchHistory := [], isSearching := false, error := none,
    apiStatus := ApiStatus.online, storedHistory := none }

/-- Value `{exists: false}` of a payload. -/
def notFound : BackendValue := { «exists» := false }

/-- Profile `{username: 'octocat', followers: 5000, public_repos: 8}`. -/
def octocatProfile : Profile :=
  { username := some "octocat", followers := some 5000, public_repos := some 8 }

/-- Payload with one key per registered platform, in registry order, where only `github`
exists, with the profile `octocatProfile`. -/
def octocatPayload : List (String × BackendValue) :=
  [ ("linkedin", notFound), ("twitter", notFound),
    ("github", { «exists» := true, profile := some octocatProfile }),
    ("instagram", notFound), ("reddit", notFound), ("tiktok", notFound),
    ("spotify", notFound) ]

/-- Payload with eight keys, the seven registered endpoints and `facebook`, all found (the
record of `facebook` has no platform). -/
def eightFoundPayload : List (String × BackendValue) :=
  ["linkedin", "twitter", "github", "instagram", "reddit", "tiktok", "spotify", "facebook"].map
    (fun key => (key, { «exists» := true, profile := some {} }))

/-- State with a ledger and results of an earlier search, before a search of `octocat`. -/
def usedState : AppState :=
  { searchTerm := "octocat", selectedPlatforms := ["GitHub"],
    searchResults := [twitterNotFound "torvalds"], searchHistory := smallLedger,
    isSearching := false, error := none, apiStatus := ApiStatus.online,
    storedHistory := some smallLedger }

/-- State whose search term is empty. -/
def emptyTermState : AppState :=
  { searchTerm := "", selectedPlatforms := ["GitHub"],
    searchResults := [twitterNotFound "torvalds"], searchHistory := smallLedger,
    isSearching := false, error := some "old error", apiStatus := ApiStatus.unknown,
    storedHistory := some smallLedger }

/-- Ledger of `usedState` after a search of `octocat` at the given time. -/
def usedLedgerAfter : List HistoryEntry :=
  { term := "octocat", timestamp := "2024-06-01T12:00:00.000Z", platforms := ["GitHub"] } ::
    smallLedger

/-- A serialisation of ledgers, standing for `JSON.stringify` in an instance: the terms,
separated by commas, in brackets. -/
def sampleStringify (history : List HistoryEntry) : String :=
  "[" ++ String.intercalate "," (terms history) ++ "]"

/-- A reading of stored strings, standing for `JSON.parse` in an instance: it reads back the
serialisation of `usedLedgerAfter` and takes every other string as not parseable. -/
def sampleParse (raw : String) : StoredValue :=
  if raw = sampleStringify usedLedgerAfter then StoredValue.serialised usedLedgerAfter
  else StoredValue.unparseable raw

/-! ## Lemmas on the JavaScript primitives -/

theorem findIndex_ge {α : Type} (p : α → Bool) (l : List α) : -1 ≤ findIndex p l := by
  induction l with
  | nil => simp [findIndex]
  | cons x xs ih =>
    simp only [findIndex]
    split_ifs <;> omega

theorem findIndex_eq_neg_one {α : Type} (p : α → Bool) (l : List α) :
    findIndex p l = -1 ↔ ∀ x ∈ l, p x = false := by
  induction l with
  | nil => simp [findIndex]
  | cons x xs ih =>
    have hge := findIndex_ge p xs
    simp only [findIndex, List.mem_cons, forall_eq_or_imp]
    by_cases hx : p x = true
    · simp [hx]
    · simp only [hx, Bool.false_eq_true, if_false]
      rw [← ih]
      constructor
      · intro h
        refine ⟨trivial, ?_⟩
        by_contra hne
        rw [if_neg hne] at h
        omega
      · intro h
        rw [if_pos h.2]

theorem splice1_findIndex {α : Type} (p : α → Bool) (l : List α) :
    splice1 l (findIndex p l) = if findIndex p l = -1 then splice1 l (-1) else l.eraseP p := by
  induction l with
  | nil => simp [findIndex]
  | cons x xs ih =>
    have hge := findIndex_ge p xs
    by_cases hx : p x = true
    · simp [findIndex, hx, splice1]
    · by_cases hn : findIndex p xs = -1
      · simp [findIndex, hx, hn]
      · have h0 : 0 ≤ findIndex p xs := by omega
        have h1 : ¬ (findIndex p xs + 1 < 0) := by omega
        have h2 : ¬ (findIndex p xs + 1 = -1) := by omega
        have h3 : ¬ (findIndex p xs < 0) := by omega
        have h4 : (findIndex p xs + 1).toNat = (findIndex p xs).toNat + 1 := by omega
        rw [if_neg hn] at ih
        simp only [splice1, h3, if_false] at ih
        simp only [findIndex, hx, Bool.false_eq_true, if_false, hn, splice1, h1, h2, h4,
          List.eraseIdx_cons_succ, ih]
        simp [List.eraseP_cons, hx]

/-- The history update, with the index bookkeeping resolved: the first entry with the searched
term is erased, the new entry is put in front, and one entry is popped when more than ten
remain. -/
theorem updateSearchHistory_eq (h : List HistoryEntry) (t ts : String) (ps : List String) :
    updateSearchHistory h t ts ps =
      if 10 < (h.eraseP (fun e => e.term == t)).length + 1 then
        ({ term := t, timestamp := ts, platforms := ps } ::
          h.eraseP (fun e => e.term == t)).dropLast
      else { term := t, timestamp := ts, platforms := ps } :: h.eraseP (fun e => e.term == t) := by
  have key : (if findIndex (fun e : HistoryEntry => e.term == t) h ≠ -1 then
      splice1 h (findIndex (fun e : HistoryEntry => e.term == t) h) else h) =
      h.eraseP (fun e => e.term == t) := by
    by_cases hn : findIndex (fun e : HistoryEntry => e.term == t) h = -1
    · rw [if_neg (by simpa using hn)]
      symm
      apply List.eraseP_of_forall_not
      intro a ha
      simpa using (findIndex_eq_neg_one _ h).1 hn a ha
    · rw [if_pos hn, splice1_findIndex, if_neg hn]
  simp only [updateSearchHistory, key, unshift, pop, List.length_cons, gt_iff_lt]

/-! ## Lemmas on the terms of the ledger -/

theorem terms_eraseP (h : List HistoryEntry) (t : String) :
    terms (h.eraseP (fun e => e.term == t)) = (terms h).erase t := by
  induction h with
  | nil => simp [terms]
  | cons e es ih =>
    simp only [terms] at ih ⊢
    by_cases he : e.term = t
    · simp [List.eraseP_cons, he]
    · have he2 : ¬ (e.term == t) = true := by simpa using he
      have he3 : (e.term == t) = false := by simpa using he
      simp only [List.eraseP_cons, he3, cond_false, List.map_cons, ih]
      rw [List.erase_cons_tail he2]

/-- Terms of the ledger after one history update. -/
theorem terms_updateSearchHistory (h : List HistoryEntry) (t ts : String) (ps : List String) :
    terms (updateSearchHistory h t ts ps) =
      if 10 < ((terms h).erase t).length + 1 then (t :: (terms h).erase t).dropLast
      else t :: (terms h).erase t := by
  rw [updateSearchHistory_eq, ← terms_eraseP]
  have hl : (terms (h.eraseP (fun e => e.term == t))).length =
      (h.eraseP (fun e => e.term == t)).length := by simp [terms]
  rw [hl]
  split_ifs
  · simp [terms, List.map_dropLast]
  · simp [terms]

theorem erase_take_of_mem (t : String) (l : List String) (n : Nat) (h : t ∈ l.take (n + 1)) :
    (l.take (n + 1)).erase t = (l.erase t).take n := by
  induction l generalizing n with
  | nil => simp at h
  | cons x xs ih =>
    by_cases hx : x = t
    · subst hx; simp
    · have hx2 : ¬ (x == t) = true := by simpa using hx
      rw [List.take_succ_cons, List.erase_cons_tail hx2, List.erase_cons_tail hx2]
      rw [List.take_succ_cons, List.mem_cons] at h
      rcases h with h | h
      · exact absurd h.symm hx
      · cases n with
        | zero => simp at h
        | succ m => rw [ih m h, List.take_succ_cons]

theorem take_erase_of_not_mem (t : String) (l : List String) (n : Nat) (h : t ∉ l.take n) :
    (l.erase t).take n = l.take n := by
  induction l generalizing n with
  | nil => simp
  | cons x xs ih =>
    cases n with
    | zero => simp
    | succ m =>
      rw [List.take_succ_cons, List.mem_cons, not_or] at h
      have hx2 : ¬ (x == t) = true := by simpa using fun e : x = t => h.1 e.symm
      rw [List.erase_cons_tail hx2, List.take_succ_cons, List.take_succ_cons, ih m h.2]

/-- One update on a ledger that holds the first ten of `l`: the result holds the new term
followed by the first nine of `l` without it. -/
theorem step_take (t : String) (l : List String) :
    (if 10 < ((l.take 10).erase t).length + 1 then (t :: (l.take 10).erase t).dropLast
      else t :: (l.take 10).erase t) = t :: (l.erase t).take 9 := by
  by_cases hm : t ∈ l.take 10
  · have e := erase_take_of_mem t l 9 hm
    rw [e]
    have hlen : ((l.erase t).take 9).length ≤ 9 := by simp
    rw [if_neg (by omega)]
  · have e : (l.take 10).erase t = l.take 10 := List.erase_of_not_mem hm
    have e2 := take_erase_of_not_mem t l 10 hm
    rw [e, ← e2]
    split_ifs with hlen
    · have h10 : 10 ≤ (l.erase t).length := by
        simp only [List.length_take] at hlen; omega
      rw [List.dropLast_cons_of_ne_nil (by intro hh; simp [hh] at hlen), List.dropLast_eq_take,
        List.take_take, List.length_take]
      have h9 : min (min 10 (l.erase t).length - 1) 10 = 9 := by omega
      rw [h9]
    · have h9 : (l.erase t).length ≤ 9 := by
        simp only [List.length_take] at hlen; omega
      rw [List.take_of_length_le (by omega), List.take_of_length_le h9]

theorem firstOccurrences_nodup (l : List String) : (firstOccurrences l).Nodup := by
  induction l with
  | nil => simp [firstOccurrences]
  | cons x xs ih =>
    simp only [firstOccurrences, List.nodup_cons]
    exact ⟨by simp [List.mem_filter], ih.filter _⟩

theorem firstOccurrences_of_nodup (l : List String) (h : l.Nodup) : firstOccurrences l = l := by
  induction l with
  | nil => simp [firstOccurrences]
  | cons x xs ih =>
    rw [List.nodup_cons] at h
    simp only [firstOccurrences, ih h.2]
    congr 1
    apply List.filter_eq_self.2
    intro a ha
    have : a ≠ x := fun e => h.1 (e ▸ ha)
    simpa using this

theorem firstOccurrences_cons_erase (x : String) (xs : List String) :
    firstOccurrences (x :: xs) = x :: (firstOccurrences xs).erase x := by
  simp only [firstOccurrences]
  congr 1
  rw [(firstOccurrences_nodup xs).erase_eq_filter]

theorem recordAll_append_singleton (events : List HistoryEntry) (e : HistoryEntry) :
    recordAll (events ++ [e]) = updateSearchHistory (recordAll events) e.term e.timestamp
      e.platforms := by
  simp [recordAll, List.foldl_append]

theorem terms_recordAll (events : List HistoryEntry) :
    terms (recordAll events) = (firstOccurrences (terms events).reverse).take 10 := by
  induction events using List.reverseRecOn with
  | nil => simp [recordAll, terms, firstOccurrences]
  | append_singleton es e ih =>
    rw [recordAll_append_singleton, terms_updateSearchHistory, ih, step_take]
    have : (terms (es ++ [e])).reverse = e.term :: (terms es).reverse := by simp [terms]
    rw [this, firstOccurrences_cons_erase]
    simp

theorem count_erase_eq_zero (t : String) (l : List String) (h : l.count t ≤ 1) :
    (l.erase t).count t = 0 := by
  rw [List.count_erase_self]; omega

/-- After one history update the new entry is first. -/
theorem head_updateSearchHistory (h : List HistoryEntry) (t ts : String) (ps : List String) :
    (updateSearchHistory h t ts ps).head? =
      some { term := t, timestamp := ts, platforms := ps } := by
  rw [updateSearchHistory_eq]
  split_ifs with hl
  · cases hE : h.eraseP (fun e => e.term == t) with
    | nil => simp [hE] at hl
    | cons a as => simp
  · simp

/-- When at most one entry of the ledger has the searched term, exactly one has it after the
update. -/
theorem count_updateSearchHistory (h : List HistoryEntry) (t ts : String) (ps : List String)
    (hc : (terms h).count t ≤ 1) : (terms (updateSearchHistory h t ts ps)).count t = 1 := by
  have h0 := count_erase_eq_zero t (terms h) hc
  rw [terms_updateSearchHistory]
  split_ifs with hl
  · cases hE : (terms h).erase t with
    | nil => simp [hE] at hl
    | cons a as =>
      rw [hE] at h0
      rw [List.dropLast_cons_of_ne_nil (by simp), List.count_cons_self]
      have hle : (a :: as).dropLast.count t ≤ (a :: as).count t :=
        (List.dropLast_sublist _).count_le t
      omega
  · rw [List.count_cons_self, h0]

theorem nodup_updateSearchHistory (h : List HistoryEntry) (t ts : String) (ps : List String)
    (hn : (terms h).Nodup) : (terms (updateSearchHistory h t ts ps)).Nodup := by
  have hcons : (t :: (terms h).erase t).Nodup :=
    List.nodup_cons.2 ⟨fun hm => (hn.mem_erase_iff.1 hm).1 rfl, hn.erase t⟩
  rw [terms_updateSearchHistory]
  split_ifs
  · exact hcons.sublist (List.dropLast_sublist _)
  · exact hcons

/-! ## Claims on the history ledger -/

/-- C1: starting from the empty ledger, after the searches `events` (oldest first) the terms of
the ledger are the first 10 elements of the reversed term sequence with only the first
occurrence of each term kept; in particular after searches for 11 pairwise distinct terms the
ledger holds exactly the 10 most recent terms, most recent first, and the oldest term is
absent. -/
theorem recordAll_terms (events : List HistoryEntry) :
    terms (recordAll events) = (firstOccurrences (terms events).reverse).take 10 ∧
    ((terms events).Nodup → events.length = 11 →
      terms (recordAll events) = (terms events).reverse.take 10 ∧
      (recordAll events).length = 10 ∧
      ∀ e, events.head? = some e → e.term ∉ terms (recordAll events)) := by
  refine ⟨terms_recordAll events, fun hn hlen => ?_⟩
  have ht : terms (recordAll events) = (terms events).reverse.take 10 := by
    rw [terms_recordAll, firstOccurrences_of_nodup _ (List.nodup_reverse.2 hn)]
  have hlen2 : (terms events).length = 11 := by simpa [terms] using hlen
  refine ⟨ht, ?_, ?_⟩
  · have : (terms (recordAll events)).length = 10 := by
      rw [ht, List.length_take, List.length_reverse, hlen2]; rfl
    simpa [terms] using this
  · intro e he
    cases events with
    | nil => simp at hlen
    | cons x xs =>
      simp only [List.head?_cons, Option.some.injEq] at he
      subst he
      rw [ht]
      have hx : (terms (x :: xs)).reverse = (terms xs).reverse ++ [x.term] := by simp [terms]
      have hn2 : (x.term :: terms xs).Nodup := hn
      have hxs : (terms xs).reverse.length = 10 := by
        simp only [List.length_cons] at hlen
        simp only [List.length_reverse, terms, List.length_map]
        omega
      rw [hx, List.take_append_of_le_length (by omega), List.take_of_length_le (by omega)]
      intro hm
      exact (List.nodup_cons.1 hn2).1 (List.mem_reverse.1 hm)

/-- Instance of C1: eleven searches for the terms `a` to `k`. -/
theorem recordAll_terms_witness :
    (terms elevenSearches).Nodup ∧ elevenSearches.length = 11 ∧
    terms (recordAll elevenSearches) = ["k", "j", "i", "h", "g", "f", "e", "d", "c", "b"] ∧
    (recordAll elevenSearches).length = 10 ∧
    "a" ∉ terms (recordAll elevenSearches) :=
  have hn : (terms elevenSearches).Nodup := by decide
  have h := (recordAll_terms elevenSearches).2 hn rfl
  ⟨hn, rfl, h.1.trans (by decide), h.2.1, h.2.2 (entryOf "a") rfl⟩

/-- C2: on a ledger whose terms are pairwise distinct, searching `t` gives a ledger whose terms
are pairwise distinct, with exactly one entry of term `t`, which is the first entry; searching
`t` once more leaves again exactly one entry of term `t`, first. -/
theorem updateSearchHistory_unique_first (h : List HistoryEntry) (t ts ts2 : String)
    (ps ps2 : List String) (hn : (terms h).Nodup) :
    (terms (updateSearchHistory h t ts ps)).Nodup ∧
    (terms (updateSearchHistory h t ts ps)).count t = 1 ∧
    (updateSearchHistory h t ts ps).head? =
      some { term := t, timestamp := ts, platforms := ps } ∧
    (terms (updateSearchHistory (updateSearchHistory h t ts ps) t ts2 ps2)).Nodup ∧
    (terms (updateSearchHistory (updateSearchHistory h t ts ps) t ts2 ps2)).count t = 1 ∧
    (updateSearchHistory (updateSearchHistory h t ts ps) t ts2 ps2).head? =
      some { term := t, timestamp := ts2, platforms := ps2 } := by
  have h1 := nodup_updateSearchHistory h t ts ps hn
  refine ⟨h1, ?_, head_updateSearchHistory _ _ _ _, nodup_updateSearchHistory _ _ _ _ h1, ?_,
    head_updateSearchHistory _ _ _ _⟩
  · exact count_updateSearchHistory _ _ _ _ (List.nodup_iff_count_le_one.1 hn t)
  · exact count_updateSearchHistory _ _ _ _ (List.nodup_iff_count_le_one.1 h1 t)

/-- Instance of C2: searching `y` twice on the ledger `x, y, z`. -/
theorem updateSearchHistory_unique_first_witness :
    (terms smallLedger).Nodup ∧
    (terms (updateSearchHistory smallLedger "y" "t1" ["GitHub"])).count "y" = 1 ∧
    (terms (updateSearchHistory (updateSearchHistory smallLedger "y" "t1" ["GitHub"])
      "y" "t2" [])).count "y" = 1 ∧
    (updateSearchHistory (updateSearchHistory smallLedger "y" "t1" ["GitHub"])
      "y" "t2" []).head? = some { term := "y", timestamp := "t2", platforms := [] } :=
  have hn : (terms smallLedger).Nodup := by decide
  have h := updateSearchHistory_unique_first smallLedger "y" "t1" "t2" ["GitHub"] [] hn
  ⟨hn, h.2.1, h.2.2.2.2.1, h.2.2.2.2.2⟩

/-- The cap holds on ledgers that respect it: after an update the ledger has at most
`max 10 n` entries, where `n` is the number of entries before. -/
theorem length_updateSearchHistory_le (h : List HistoryEntry) (t ts : String) (ps : List String) :
    (updateSearchHistory h t ts ps).length ≤ max 10 h.length := by
  rw [updateSearchHistory_eq]
  have hle : (h.eraseP (fun e => e.term == t)).length ≤ h.length :=
    (List.eraseP_sublist h).length_le
  split_ifs with hl
  · rw [List.length_dropLast, List.length_cons]; omega
  · rw [List.length_cons]; omega

/-- C3 (failing input): a ledger of eleven entries, as `JSON.parse` returns it for a stored
value of eleven entries, still has eleven entries after the search of a new term: a single
`pop` does not bring it back to ten. -/
theorem updateSearchHistory_exceeds_cap :
    storedElevenLedger.length = 11 ∧
    (updateSearchHistory storedElevenLedger "octocat" "2024-06-01T12:00:00.000Z"
      ["GitHub"]).length = 11 ∧
    ¬ (updateSearchHistory storedElevenLedger "octocat" "2024-06-01T12:00:00.000Z"
      ["GitHub"]).length ≤ 10 := by
  decide

/-- C4 (counterexample): on a ledger that holds the term `octocat` twice, searching `octocat`
leaves two entries with that term, not one: only the first of them is removed. -/
theorem updateSearchHistory_keeps_duplicate :
    (terms (updateSearchHistory storedDuplicateLedger "octocat" "2024-06-01T12:00:00.000Z"
      ["GitHub"])).count "octocat" = 2 ∧
    ¬ ∀ (h : List HistoryEntry) (t ts : String) (ps : List String),
      (terms (updateSearchHistory h t ts ps)).count t = 1 := by
  have h2 : (terms (updateSearchHistory storedDuplicateLedger "octocat"
      "2024-06-01T12:00:00.000Z" ["GitHub"])).count "octocat" = 2 := by decide
  refine ⟨h2, fun hall => ?_⟩
  have h1 := hall storedDuplicateLedger "octocat" "2024-06-01T12:00:00.000Z" ["GitHub"]
  rw [h2] at h1
  exact absurd h1 (by decide)

/-- C4 (amended): searching `t` removes the first entry with term `t` when there is one, puts
the new entry first and pops one entry when more than ten remain; when at most one entry of the
ledger had term `t`, exactly one entry has term `t` afterwards, and it is the first. -/
theorem updateSearchHistory_exactly_one (h : List HistoryEntry) (t ts : String)
    (ps : List String) :
    (updateSearchHistory h t ts ps =
      if 10 < (h.eraseP (fun e => e.term == t)).length + 1 then
        ({ term := t, timestamp := ts, platforms := ps } ::
          h.eraseP (fun e => e.term == t)).dropLast
      else { term := t, timestamp := ts, platforms := ps } :: h.eraseP (fun e => e.term == t)) ∧
    ((terms h).count t ≤ 1 →
      (terms (updateSearchHistory h t ts ps)).count t = 1 ∧
      (updateSearchHistory h t ts ps).head? =
        some { term := t, timestamp := ts, platforms := ps }) :=
  ⟨updateSearchHistory_eq h t ts ps,
    fun hc => ⟨count_updateSearchHistory h t ts ps hc, head_updateSearchHistory h t ts ps⟩⟩

/-- Instance of C4 (amended): searching `z` on the ledger `x, y, z`. -/
theorem updateSearchHistory_exactly_one_witness :
    (terms smallLedger).count "z" ≤ 1 ∧
    (terms (updateSearchHistory smallLedger "z" "t1" [])).count "z" = 1 ∧
    (updateSearchHistory smallLedger "z" "t1" []).head? =
      some { term := "z", timestamp := "t1", platforms := [] } :=
  have hc : (terms smallLedger).count "z" ≤ 1 := by decide
  ⟨hc, (updateSearchHistory_exactly_one smallLedger "z" "t1" []).2 hc⟩

/-! ## Claims on the engagement score -/

/-- Closed form of `calculateEngagementScore`: the bracket base of a truthy follower count,
the bonuses of the truthy `name`, `bio`, `avatar_url`, the GitHub bonus, capped at 100. -/
theorem calculateEngagementScore_eq (profile : Profile) (platform : Platform) :
    calculateEngagementScore profile platform =
      min 100 (codeBracketBase profile.followers + 5 * ind (truthyStr profile.name) +
        10 * ind (truthyStr profile.bio) + 5 * ind (truthyStr profile.avatar_url) +
        specRepoBonus profile platform) := by
  unfold calculateEngagementScore
  lift_lets
  extract_lets s0 s1 s2 s3 s4 s5
  have h1 : s1 = codeBracketBase profile.followers := by
    simp only [s1, s0, codeBracketBase]
    cases profile.followers with
    | none => rfl
    | some f => simp only [bne_iff_ne, ne_eq, ite_not, zero_add]
  have h2 : s2 = s1 + 5 * ind (truthyStr profile.name) := by
    simp only [s2, ind]; split_ifs <;> simp
  have h3 : s3 = s2 + 10 * ind (truthyStr profile.bio) := by
    simp only [s3, ind]; split_ifs <;> simp
  have h4 : s4 = s3 + 5 * ind (truthyStr profile.avatar_url) := by
    simp only [s4, ind]; split_ifs <;> simp
  have h5 : s5 = s4 + specRepoBonus profile platform := by
    simp only [s5, specRepoBonus]
    cases profile.public_repos with
    | none => simp
    | some r =>
      simp only [Bool.and_eq_true, beq_iff_eq, bne_iff_ne, ne_eq]
      by_cases hg : platform.name = "GitHub"
      · by_cases hr : r = 0
        · simp [hg, hr]
        · simp [hg, hr]
      · simp [hg]
  rw [h5, h4, h3, h2, h1, min_comm]

theorem ind_nonneg (b : Bool) : 0 ≤ ind b := by
  cases b <;> simp [ind]

theorem codeBracketBase_nonneg (f : Option Int) : 0 ≤ codeBracketBase f := by
  cases f with
  | none => simp [codeBracketBase]
  | some f => simp only [codeBracketBase]; split_ifs <;> omega

theorem codeBracketBase_mono (f1 f2 : Int) (hle : f1 ≤ f2) (h0 : 0 ≤ f1 ∨ f2 ≠ 0) :
    codeBracketBase (some f1) ≤ codeBracketBase (some f2) := by
  simp only [codeBracketBase]
  split_ifs <;> omega

/-- C5 (counterexample): on GitHub, a profile whose only field is `public_repos = -1` gets the
score `-2`, which is below 0. -/
theorem calculateEngagementScore_below_zero :
    calculateEngagementScore { public_repos := some (-1) } githubPlatform = -2 ∧
    ¬ (0 ≤ calculateEngagementScore { public_repos := some (-1) } githubPlatform ∧
      calculateEngagementScore { public_repos := some (-1) } githubPlatform ≤ 100) := by
  decide

/-- C5 (amended): for every profile and platform the score is at most 100, and it is at least
0 unless the platform is GitHub and `public_repos` is negative: the code caps the score at 100
and has no lower clamp. -/
theorem calculateEngagementScore_range (profile : Profile) (platform : Platform) :
    calculateEngagementScore profile platform ≤ 100 ∧
    ((platform.name = "GitHub" → ∀ r, profile.public_repos = some r → 0 ≤ r) →
      0 ≤ calculateEngagementScore profile platform) := by
  rw [calculateEngagementScore_eq]
  refine ⟨min_le_left _ _, fun h => le_min (by decide) ?_⟩
  have hb := codeBracketBase_nonneg profile.followers
  have h1 := ind_nonneg (truthyStr profile.name)
  have h2 := ind_nonneg (truthyStr profile.bio)
  have h3 := ind_nonneg (truthyStr profile.avatar_url)
  have hg : 0 ≤ specRepoBonus profile platform := by
    unfold specRepoBonus
    cases hr : profile.public_repos with
    | none => simp
    | some r =>
      simp only
      split_ifs with hp
      · have := h hp r hr
        omega
      · exact le_rfl
  omega

/-- Instance of C5 (amended): the GitHub profile with 5000 followers and 8 repositories. -/
theorem calculateEngagementScore_range_witness :
    (githubPlatform.name = "GitHub" →
      ∀ r, ({ followers := some 5000, public_repos := some 8 } : Profile).public_repos = some r →
        0 ≤ r) ∧
    0 ≤ calculateEngagementScore { followers := some 5000, public_repos := some 8 }
      githubPlatform :=
  have h : githubPlatform.name = "GitHub" →
      ∀ r, ({ followers := some 5000, public_repos := some 8 } : Profile).public_repos = some r →
        0 ≤ r := by
    intro _ r hr
    cases hr
    decide
  ⟨h, (calculateEngagementScore_range { followers := some 5000, public_repos := some 8 }
    githubPlatform).2 h⟩

/-- Monotonicity on integer values of `followers`: the score does not decrease from `f1` to
`f2 ≥ f1` unless `f1` is negative and `f2` is zero. -/
theorem calculateEngagementScore_mono_int (platform : Platform) (p1 p2 : Profile) (f1 f2 : Int)
    (hname : p1.name = p2.name) (hbio : p1.bio = p2.bio)
    (havatar : p1.avatar_url = p2.avatar_url) (hrepos : p1.public_repos = p2.public_repos)
    (h1 : p1.followers = some f1) (h2 : p2.followers = some f2)
    (hle : f1 ≤ f2) (h0 : 0 ≤ f1 ∨ f2 ≠ 0) :
    calculateEngagementScore p1 platform ≤ calculateEngagementScore p2 platform := by
  rw [calculateEngagementScore_eq, calculateEngagementScore_eq]
  have hg : specRepoBonus p1 platform = specRepoBonus p2 platform := by
    simp only [specRepoBonus, hrepos]
  rw [hname, hbio, havatar, hg, h1, h2]
  have hb := codeBracketBase_mono f1 f2 hle h0
  exact min_le_min le_rfl (by omega)

/-- C6: for every platform and every two profiles that agree on `name`, `bio`, `avatar_url`
and `public_repos` and whose follower counts `f1`, `f2` (counts, so natural numbers) satisfy
`f1 ≤ f2`, the score of the first is at most the score of the second. -/
theorem calculateEngagementScore_monotone (platform : Platform) (p1 p2 : Profile) (f1 f2 : Nat)
    (hname : p1.name = p2.name) (hbio : p1.bio = p2.bio)
    (havatar : p1.avatar_url = p2.avatar_url) (hrepos : p1.public_repos = p2.public_repos)
    (h1 : p1.followers = some (f1 : Int)) (h2 : p2.followers = some (f2 : Int))
    (hle : f1 ≤ f2) :
    calculateEngagementScore p1 platform ≤ calculateEngagementScore p2 platform :=
  calculateEngagementScore_mono_int platform p1 p2 f1 f2 hname hbio havatar hrepos h1 h2
    (Int.ofNat_le.2 hle) (Or.inl (Int.ofNat_nonneg f1))

/-- Instance of C6: 0, 500 and 5000 followers, all other fields equal. -/
theorem calculateEngagementScore_monotone_witness :
    (500 : Nat) ≤ 5000 ∧
    calculateEngagementScore { name := some "Octo", followers := some 500 } githubPlatform ≤
      calculateEngagementScore { name := some "Octo", followers := some 5000 } githubPlatform ∧
    calculateEngagementScore { name := some "Octo", followers := some 0 } githubPlatform ≤
      calculateEngagementScore { name := some "Octo", followers := some 500 } githubPlatform :=
  ⟨by decide,
    calculateEngagementScore_monotone githubPlatform { name := some "Octo", followers := some 500 }
      { name := some "Octo", followers := some 5000 } 500 5000 rfl rfl rfl rfl rfl rfl
      (by decide),
    calculateEngagementScore_monotone githubPlatform { name := some "Octo", followers := some 0 }
      { name := some "Octo", followers := some 500 } 0 500 rfl rfl rfl rfl rfl rfl
      (by decide)⟩

/-- Without `name`, `bio`, `avatar_url` and `public_repos` the score is the bracket base. -/
theorem calculateEngagementScore_bare (profile : Profile) (platform : Platform)
    (hname : profile.name = none) (hbio : profile.bio = none)
    (havatar : profile.avatar_url = none) (hrepos : profile.public_repos = none) :
    calculateEngagementScore profile platform = codeBracketBase profile.followers := by
  rw [calculateEngagementScore_eq]
  have hg : specRepoBonus profile platform = 0 := by simp [specRepoBonus, hrepos]
  have hle : codeBracketBase profile.followers ≤ 100 := by
    cases profile.followers with
    | none => simp [codeBracketBase]
    | some f => simp only [codeBracketBase]; split_ifs <;> omega
  rw [hname, hbio, havatar, hg]
  simp only [truthyStr, ind, Bool.false_eq_true, if_false, mul_zero, add_zero]
  exact min_eq_right hle

/-- C7 (counterexample): a profile whose only field is `followers = 0` (a present follower
count below 1000) scores 0, where the bracket of the claim gives 10. -/
theorem calculateEngagementScore_zero_followers :
    specBracketBase (some 0) = 10 ∧
    calculateEngagementScore { followers := some 0 } twitterPlatform = 0 ∧
    calculateEngagementScore { followers := some 0 } twitterPlatform ≠
      specBracketBase (some 0) := by
  decide

/-- C7 (amended): for every profile with no `name`, `bio`, `avatar_url` or `public_repos`, the
score is 0 when followers is absent or zero, 10 for every non-zero follower count below 1000,
30 for counts in [1000, 10000), 50 for counts in [10000, 100000) and 70 for counts of at
least 100000. -/
theorem calculateEngagementScore_bracket (profile : Profile) (platform : Platform)
    (hname : profile.name = none) (hbio : profile.bio = none)
    (havatar : profile.avatar_url = none) (hrepos : profile.public_repos = none) :
    (profile.followers = none → calculateEngagementScore profile platform = 0) ∧
    (∀ f : Int, profile.followers = some f →
      (f = 0 → calculateEngagementScore profile platform = 0) ∧
      (f ≠ 0 → f < 1000 → calculateEngagementScore profile platform = 10) ∧
      (1000 ≤ f → f < 10000 → calculateEngagementScore profile platform = 30) ∧
      (10000 ≤ f → f < 100000 → calculateEngagementScore profile platform = 50) ∧
      (100000 ≤ f → calculateEngagementScore profile platform = 70)) := by
  rw [calculateEngagementScore_bare profile platform hname hbio havatar hrepos]
  refine ⟨fun h => by rw [h]; rfl, fun f h => ?_⟩
  rw [h]
  simp only [codeBracketBase]
  refine ⟨fun h0 => ?_, fun h0 h1 => ?_, fun h0 h1 => ?_, fun h0 h1 => ?_, fun h0 => ?_⟩ <;>
    split_ifs <;> omega

/-- Instance of C7 (amended): 5000 followers and no other field give 30. -/
theorem calculateEngagementScore_bracket_witness :
    ({ followers := some 5000 } : Profile).name = none ∧
    ({ followers := some 5000 } : Profile).followers = some 5000 ∧
    calculateEngagementScore { followers := some 5000 } twitterPlatform = 30 :=
  ⟨rfl, rfl,
    ((calculateEngagementScore_bracket { followers := some 5000 } twitterPlatform rfl rfl rfl
      rfl).2 5000 rfl).2.2.1 (by decide) (by decide)⟩

/-- C8 (counterexample): with `followers = 0` the code gives 0 where the formula of the claim
gives 10, and with an empty `name` the code gives 0 where the formula gives 5; all counts are
non-negative. -/
theorem calculateEngagementScore_differs_from_spec :
    (calculateEngagementScore { followers := some 0 } githubPlatform = 0 ∧
      specEngagementScore { followers := some 0 } githubPlatform = 10) ∧
    (calculateEngagementScore { name := some "" } githubPlatform = 0 ∧
      specEngagementScore { name := some "" } githubPlatform = 5) := by
  decide

/-- C8 (amended): for every profile and platform the score is
`min(100, base + 5*[name] + 10*[bio] + 5*[avatar_url] + g)`, where `base` is the
follower-bracket contribution of a non-zero follower count (0 when followers is absent or
zero), `[x]` is 1 when the field is present and not the empty string, and `g` is
`min(2 * public_repos, 20)` when the platform is GitHub and `public_repos` is present and 0
for every other platform. -/
theorem calculateEngagementScore_formula (profile : Profile) (platform : Platform) :
    calculateEngagementScore profile platform =
      min 100 (codeBracketBase profile.followers + 5 * ind (truthyStr profile.name) +
        10 * ind (truthyStr profile.bio) + 5 * ind (truthyStr profile.avatar_url) +
        specRepoBonus profile platform) :=
  calculateEngagementScore_eq profile platform

/-! ## Claims on the result normaliser -/

theorem findByEndpoint_registered :
    ∀ p ∈ PLATFORMS, findByEndpoint p.apiEndpoint = some p := by
  decide

theorem registry_indices_sorted :
    (PLATFORMS.map registryIndex).Pairwise (fun i j => i ≤ j) := by
  decide

theorem findByEndpoint_eq_some (key : String) (p : Platform) (h : findByEndpoint key = some p) :
    p ∈ PLATFORMS ∧ p.apiEndpoint = key := by
  unfold findByEndpoint at h
  exact ⟨List.mem_of_find?_eq_some h, by simpa using List.find?_some h⟩

theorem findByEndpoint_eq_none (key : String) :
    findByEndpoint key = none ↔ key ∉ PLATFORMS.map (fun p => p.apiEndpoint) := by
  unfold findByEndpoint
  rw [List.find?_eq_none]
  simp only [List.mem_map, not_exists, not_and, beq_iff_eq, Bool.not_eq_true, beq_eq_false_iff_ne,
    ne_eq]

theorem formattedResults_platforms (data : List (String × BackendValue)) (searchTerm : String) :
    (formattedResults data searchTerm).map (fun r => r.platform) =
      data.map (fun kv => findByEndpoint kv.1) := by
  simp [formattedResults, List.map_map, Function.comp_def]

/-- C9 (counterexample): for the payload with keys `github`, `twitter` in that order the
result list holds GitHub before Twitter, the order of the keys, which is not registry order
(Twitter precedes GitHub in the registry). -/
theorem formattedResults_not_registry_order :
    (resultPlatforms (formattedResults githubTwitterPayload "octocat")).map (fun p => p.name) =
      ["GitHub", "Twitter"] ∧
    PLATFORMS.map (fun p => p.name) =
      ["LinkedIn", "Twitter", "GitHub", "Instagram", "Reddit", "TikTok", "Spotify"] ∧
    ¬ InRegistryOrder (formattedResults githubTwitterPayload "octocat") := by
  decide

/-- C9 (amended): the normalised result list is in the order of the keys of the payload: the
record at each position carries the platform registered under the key at that position;
hence it is in registry order whenever the keys of the payload are the endpoints of a
sub-list of the registry, in registry order. -/
theorem formattedResults_key_order (data : List (String × BackendValue)) (searchTerm : String) :
    (formattedResults data searchTerm).map (fun r => r.platform) =
      data.map (fun kv => findByEndpoint kv.1) ∧
    ∀ sub : List Platform, sub.Sublist PLATFORMS →
      data.map (fun kv => kv.1) = sub.map (fun p => p.apiEndpoint) →
      (formattedResults data searchTerm).map (fun r => r.platform) = sub.map some ∧
      InRegistryOrder (formattedResults data searchTerm) := by
  refine ⟨formattedResults_platforms data searchTerm, fun sub hsub hkeys => ?_⟩
  have hp : (formattedResults data searchTerm).map (fun r => r.platform) = sub.map some := by
    rw [formattedResults_platforms]
    have h1 : data.map (fun kv => findByEndpoint kv.1) =
        (data.map (fun kv => kv.1)).map findByEndpoint := by
      simp [List.map_map, Function.comp_def]
    rw [h1, hkeys, List.map_map]
    apply List.map_congr_left
    intro p hp
    exact findByEndpoint_registered p (hsub.subset hp)
  refine ⟨hp, ?_⟩
  have hr : resultPlatforms (formattedResults data searchTerm) = sub := by
    have h2 : resultPlatforms (formattedResults data searchTerm) =
        ((formattedResults data searchTerm).map (fun r => r.platform)).filterMap id := by
      simp [resultPlatforms, List.filterMap_map, Function.comp_def]
    rw [h2, hp, List.filterMap_map]
    simp
  unfold InRegistryOrder
  rw [hr]
  exact registry_indices_sorted.sublist (hsub.map registryIndex)

/-- Instance of C9 (amended): the payload with keys `twitter`, `github`. -/
theorem formattedResults_key_order_witness :
    [twitterPlatform, githubPlatform].Sublist PLATFORMS ∧
    twitterGithubPayload.map (fun kv => kv.1) =
      [twitterPlatform, githubPlatform].map (fun p => p.apiEndpoint) ∧
    (formattedResults twitterGithubPayload "octocat").map (fun r => r.platform) =
      [some twitterPlatform, some githubPlatform] ∧
    InRegistryOrder (formattedResults twitterGithubPayload "octocat") :=
  have hsub : [twitterPlatform, githubPlatform].Sublist PLATFORMS := by decide
  ⟨hsub, rfl,
    (formattedResults_key_order twitterGithubPayload "octocat").2
      [twitterPlatform, githubPlatform] hsub rfl⟩

/-- C10 (counterexample): for the payload `{facebook: {exists: false}}` the output holds one
record, for the unregistered key, and its platform is undefined. -/
theorem formattedResults_keeps_unknown_key :
    findByEndpoint "facebook" = none ∧
    formattedResults facebookPayload "octocat" =
      [ { platform := none, «exists» := false, profile := none,
          params := { username := "octocat" } } ] ∧
    ¬ ∀ r ∈ formattedResults facebookPayload "octocat", ∃ p ∈ PLATFORMS, r.platform = some p := by
  decide

/-- C10 (amended): a key that matches no registered platform endpoint is not dropped: the
output holds one record per key of the payload, at the position of the key; the platform of
that record is undefined exactly when the key is no registered endpoint, and otherwise it is
the registered platform with that endpoint. -/
theorem formattedResults_one_record_per_key (data : List (String × BackendValue))
    (searchTerm : String) :
    (formattedResults data searchTerm).length = data.length ∧
    List.Forall₂
      (fun kv r =>
        (r.platform = none ↔ kv.1 ∉ PLATFORMS.map (fun p => p.apiEndpoint)) ∧
        ∀ p, r.platform = some p → p ∈ PLATFORMS ∧ p.apiEndpoint = kv.1)
      data (formattedResults data searchTerm) := by
  refine ⟨by simp [formattedResults], ?_⟩
  unfold formattedResults
  rw [List.forall₂_map_right_iff, List.forall₂_same]
  intro kv _
  exact ⟨findByEndpoint_eq_none kv.1, fun p hp => findByEndpoint_eq_some kv.1 p hp⟩

/-- Instance of C10 (amended): the payload with keys `github`, `facebook`. -/
theorem formattedResults_one_record_per_key_witness :
    (formattedResults githubFacebookPayload "octocat").length = 2 ∧
    (formattedResults githubFacebookPayload "octocat").map (fun r => r.platform) =
      [some githubPlatform, none] :=
  ⟨(formattedResults_one_record_per_key githubFacebookPayload "octocat").1, by decide⟩

/-- C11: for every payload and search term `u` the normaliser returns exactly one record per
key of the payload, at the position of the key and with the `exists` flag of the key's value,
and every record, whatever its `exists` flag, carries `u` as `params.username`. -/
theorem formattedResults_carries_username (data : List (String × BackendValue))
    (searchTerm : String) :
    (formattedResults data searchTerm).length = data.length ∧
    List.Forall₂
      (fun kv r => r.platform = findByEndpoint kv.1 ∧ r.exists = kv.2.exists ∧
        r.params.username = searchTerm)
      data (formattedResults data searchTerm) ∧
    ∀ r ∈ formattedResults data searchTerm, r.params.username = searchTerm := by
  refine ⟨by simp [formattedResults], ?_, ?_⟩
  · unfold formattedResults
    rw [List.forall₂_map_right_iff, List.forall₂_same]
    intro kv _
    exact ⟨rfl, rfl, rfl⟩
  · intro r hr
    unfold formattedResults at hr
    obtain ⟨kv, _, rfl⟩ := List.mem_map.1 hr
    rfl

/-- Instance of C11: the record of the key `twitter`, whose `exists` flag is false, carries
the searched name. -/
theorem formattedResults_carries_username_witness :
    twitterNotFound "octocat" ∈ formattedResults githubTwitterPayload "octocat" ∧
    (twitterNotFound "octocat").exists = false ∧
    (twitterNotFound "octocat").params.username = "octocat" :=
  have hm : twitterNotFound "octocat" ∈ formattedResults githubTwitterPayload "octocat" := by
    decide
  ⟨hm, rfl, (formattedResults_carries_username githubTwitterPayload "octocat").2.2 _ hm⟩

theorem findByEndpoint_github : findByEndpoint "github" = some githubPlatform := by decide

theorem findByEndpoint_twitter : findByEndpoint "twitter" = some twitterPlatform := by decide

/-- C12 (counterexample): for the payload with keys `github`, `twitter` the output is not in
registry order: GitHub comes first in the output, and the registry has Twitter (position 1)
before GitHub (position 2). -/
theorem formattedResults_github_twitter_not_registry :
    registryIndex twitterPlatform = 1 ∧ registryIndex githubPlatform = 2 ∧
    ¬ ((formattedResults githubTwitterPayload "octocat").length = 2 ∧
      InRegistryOrder (formattedResults githubTwitterPayload "octocat") ∧
      (formattedResults githubTwitterPayload "octocat").map (fun r => r.platform) =
        [some githubPlatform, some twitterPlatform]) := by
  decide

/-- C12 (amended): for the payload `{github: {exists: true, profile}, twitter: {exists:
false}}`, keys in that order, the output has exactly 2 entries in the order of the keys, GitHub
before Twitter (which is not the order of the registry), the GitHub entry has `exists = true`
and the profile of the payload, and the Twitter entry has `exists = false` and no profile. -/
theorem formattedResults_github_twitter (profile : Profile) (searchTerm : String) :
    formattedResults (githubThenTwitter profile) searchTerm =
      [githubFound profile searchTerm, twitterNotFound searchTerm] ∧
    (formattedResults (githubThenTwitter profile) searchTerm).length = 2 ∧
    (twitterNotFound searchTerm).exists = false ∧
    (twitterNotFound searchTerm).profile = none ∧
    ¬ InRegistryOrder (formattedResults (githubThenTwitter profile) searchTerm) := by
  have h : formattedResults (githubThenTwitter profile) searchTerm =
      [githubFound profile searchTerm, twitterNotFound searchTerm] := by
    simp [formattedResults, githubThenTwitter, findByEndpoint_github, findByEndpoint_twitter,
      githubFound, twitterNotFound]
  refine ⟨h, by rw [h]; rfl, rfl, rfl, ?_⟩
  rw [h]
  have hp : resultPlatforms [githubFound profile searchTerm, twitterNotFound searchTerm] =
      [githubPlatform, twitterPlatform] := by
    simp [resultPlatforms, githubFound, twitterNotFound]
  unfold InRegistryOrder
  rw [hp]
  decide

/-! ## Claims on the audience size, the registry and the platform selection -/

/-- C17: for every follower count `f` the Audience Size label is `Small` when `f ≤ 1000`,
`Medium` when `1000 < f ≤ 10000`, `Large` when `10000 < f ≤ 100000` and `Very Large` when
`f > 100000`. -/
theorem audienceSize_thresholds (profile : Profile) (f : Int) (hf : profile.followers = some f) :
    audienceSize profile = some (specAudienceTier f) ∧
    (f ≤ 1000 → audienceSize profile = some "Small") ∧
    (1000 < f → f ≤ 10000 → audienceSize profile = some "Medium") ∧
    (10000 < f → f ≤ 100000 → audienceSize profile = some "Large") ∧
    (100000 < f → audienceSize profile = some "Very Large") := by
  simp only [audienceSize, hf, specAudienceTier, gt_iff_lt, Option.some.injEq]
  refine ⟨?_, fun h => ?_, fun h1 h2 => ?_, fun h1 h2 => ?_, fun h => ?_⟩
  · split_ifs <;> first | rfl | omega
  · rw [if_neg (by omega), if_neg (by omega), if_neg (by omega)]
  · rw [if_neg (by omega), if_neg (by omega), if_pos h1]
  · rw [if_neg (by omega), if_pos h1]
  · rw [if_pos h]

/-- A follower count that is present with the value `null` passes the guard
`!== undefined` and is labelled `Small`; an absent one has no row. -/
theorem audienceSize_null_and_absent :
    audienceSize { followersNull := true } = some "Small" ∧ audienceSize {} = none := by
  decide

/-- Instance of C17: exactly 1000 followers are `Small`, 1001 are `Medium`. -/
theorem audienceSize_thresholds_witness :
    audienceSize { followers := some 1000 } = some "Small" ∧
    audienceSize { followers := some 1001 } = some "Medium" :=
  ⟨(audienceSize_thresholds { followers := some 1000 } 1000 rfl).2.1 (by decide),
    (audienceSize_thresholds { followers := some 1001 } 1001 rfl).2.2.1 (by decide)
      (by decide)⟩

/-- C18: the registry has exactly 7 entries, named LinkedIn, Twitter, GitHub, Instagram,
Reddit, TikTok, Spotify in that order; the names are pairwise distinct, the endpoint keys are
pairwise distinct, and looking a registered platform up by its own endpoint key or by its own
name returns that platform. -/
theorem PLATFORMS_registry :
    PLATFORMS.length = 7 ∧
    PLATFORMS.map (fun p => p.name) =
      ["LinkedIn", "Twitter", "GitHub", "Instagram", "Reddit", "TikTok", "Spotify"] ∧
    (PLATFORMS.map (fun p => p.name)).Nodup ∧
    (PLATFORMS.map (fun p => p.apiEndpoint)).Nodup ∧
    (∀ p ∈ PLATFORMS, findByEndpoint p.apiEndpoint = some p) ∧
    (∀ p ∈ PLATFORMS, findByName p.name = some p) := by
  refine ⟨rfl, rfl, by decide, by decide, findByEndpoint_registered, by decide⟩

/-- Instance of C18: the lookups of GitHub. -/
theorem PLATFORMS_registry_witness :
    githubPlatform ∈ PLATFORMS ∧ findByEndpoint "github" = some githubPlatform ∧
    findByName "GitHub" = some githubPlatform :=
  have hm : githubPlatform ∈ PLATFORMS := by decide
  ⟨hm, PLATFORMS_registry.2.2.2.2.1 githubPlatform hm,
    PLATFORMS_registry.2.2.2.2.2 githubPlatform hm⟩

theorem platformsToSearch_of_ne_nil (sel : List String) (h : sel ≠ []) :
    platformsToSearch sel = PLATFORMS.filter (fun p => decide (p.name ∈ sel)) := by
  have hl : sel.length > 0 := List.length_pos.2 h
  simp only [platformsToSearch, hl, if_true]
  apply List.filter_congr
  intro p _
  simp

/-- C20: the resolved platform list is the whole registry when the selection is empty, and
otherwise the registered platforms whose name occurs in the selection, in registry order: it
is a sub-list of the registry, it holds exactly the registered platforms named in the
selection, and two selections with the same set of names resolve to the same list; the
platform parameter of the request is the comma-joined list of their endpoint keys. -/
theorem platformsToSearch_resolution (sel : List String) :
    (sel = [] → platformsToSearch sel = PLATFORMS) ∧
    (sel ≠ [] → platformsToSearch sel = PLATFORMS.filter (fun p => decide (p.name ∈ sel))) ∧
    (sel ≠ [] → ∀ p, p ∈ platformsToSearch sel ↔ p ∈ PLATFORMS ∧ p.name ∈ sel) ∧
    (platformsToSearch sel).Sublist PLATFORMS ∧
    (∀ sel2 : List String, (∀ n, n ∈ sel ↔ n ∈ sel2) →
      platformsToSearch sel2 = platformsToSearch sel) ∧
    platformParams sel =
      String.intercalate "," ((platformsToSearch sel).map (fun p => p.apiEndpoint)) ∧
    (∀ searchTerm : String, searchUrl searchTerm sel =
      "http://localhost:5000/api/search/" ++ searchTerm ++ "?platforms=" ++
        platformParams sel) := by
  refine ⟨fun h => by subst h; rfl, platformsToSearch_of_ne_nil sel, fun h p => ?_, ?_,
    fun sel2 hset => ?_, rfl, fun _ => rfl⟩
  · rw [platformsToSearch_of_ne_nil sel h]
    simp [List.mem_filter]
  · unfold platformsToSearch
    split_ifs
    · exact List.filter_sublist _
    · exact List.Sublist.refl _
  · by_cases h : sel = []
    · subst h
      have h2 : sel2 = [] := by
        apply List.eq_nil_iff_forall_not_mem.2
        intro a ha
        exact absurd ((hset a).2 ha) (List.not_mem_nil a)
      rw [h2]
    · have h2 : sel2 ≠ [] := by
        obtain ⟨a, ha⟩ := List.exists_mem_of_ne_nil sel h
        exact List.ne_nil_of_mem ((hset a).1 ha)
      rw [platformsToSearch_of_ne_nil sel h, platformsToSearch_of_ne_nil sel2 h2]
      apply List.filter_congr
      intro p _
      simp [hset]

/-- Instance of C20: a selection that names GitHub twice and Twitter once, in that order. -/
theorem platformsToSearch_resolution_witness :
    platformsToSearch ["GitHub", "Twitter", "GitHub"] = [twitterPlatform, githubPlatform] ∧
    platformsToSearch ["Twitter", "GitHub"] = platformsToSearch ["GitHub", "Twitter", "GitHub"] ∧
    platformParams ["GitHub", "Twitter", "GitHub"] = "twitter,github" :=
  ⟨((platformsToSearch_resolution ["GitHub", "Twitter", "GitHub"]).2.1 (by decide)).trans
      (by decide),
    (platformsToSearch_resolution ["GitHub", "Twitter", "GitHub"]).2.2.2.2.1
      ["Twitter", "GitHub"] (by intro n; simp [or_comm]),
    by decide⟩

/-! ## Claims on the network overview -/

theorem foldl_add_followers (l : List SearchResult) (a : Int) :
    l.foldl (fun sum result => sum + followersOf result) a =
      a + (l.map followersOf).sum := by
  induction l generalizing a with
  | nil => simp
  | cons r rs ih => simp [List.foldl_cons, ih, add_assoc]

theorem sum_followers_eq (rs : List SearchResult) :
    ((rs.filter hasFollowers).map followersOf).sum = specTotalFollowers rs := by
  induction rs with
  | nil => rfl
  | cons r rs ih =>
    unfold specTotalFollowers at ih ⊢
    obtain ⟨pl, ex, prof, par⟩ := r
    cases ex with
    | false => simpa [hasFollowers, List.filter_cons] using ih
    | true =>
      cases prof with
      | none => simpa [hasFollowers, List.filter_cons] using ih
      | some p =>
        cases hf : p.followers with
        | none => simpa [hasFollowers, List.filter_cons, hf] using ih
        | some f =>
          by_cases h0 : f = 0
          · simpa [hasFollowers, List.filter_cons, hf, h0] using ih
          · simpa [hasFollowers, List.filter_cons, hf, h0, followersOf] using ih

/-- C14: for every result list the Total Followers value is the sum of `profile.followers`
over the results with `exists = true` whose followers is present, and the Platforms Used count
is the number of results with `exists = true`; for three results with followers 500, 1500,
absent and `exists` true, true, false this gives 2000 and 2. -/
theorem totalFollowers_platformsFound (searchResults : List SearchResult) :
    totalFollowers searchResults = specTotalFollowers searchResults ∧
    platformsFound searchResults = searchResults.countP (fun r => r.exists) ∧
    totalFollowers reachExample = 2000 ∧ platformsFound reachExample = 2 := by
  refine ⟨?_, ?_, by decide, by decide⟩
  · rw [totalFollowers, foldl_add_followers, zero_add, sum_followers_eq]
  · rw [platformsFound, List.countP_eq_length_filter]

theorem mathRound_sevenths (k : Nat) :
    mathRound (((k : ℚ) / ((7 : Nat) : ℚ)) * 100) = (200 * (k : Int) + 7) / 14 := by
  have h : ((k : ℚ) / ((7 : Nat) : ℚ)) * 100 + 1 / 2 =
      (((200 * (k : Int) + 7 : Int) : ℚ)) / ((14 : Nat) : ℚ) := by
    push_cast
    ring
  rw [mathRound, h, Rat.floor_intCast_div_natCast]
  rfl

/-- C15: for every result list the Digital Presence Score is
`round(platformsFound / totalPlatforms * 100)`, where `platformsFound` counts the results with
`exists = true` and `totalPlatforms` is the size of the registry, 7, whatever was searched: in
whole numbers it is `(200 * platformsFound + 7) / 14` rounded down, and a search of two platforms
that finds both scores 29, not 100. -/
theorem digitalPresenceScore_formula (searchResults : List SearchResult) :
    digitalPresenceScore searchResults =
      specPresenceScore (searchResults.countP (fun r => r.exists)) 7 ∧
    PLATFORMS.length = 7 ∧
    digitalPresenceScore searchResults =
      (200 * (searchResults.countP (fun r => r.exists) : Int) + 7) / 14 ∧
    digitalPresenceScore bothFound = 29 := by
  have hp : ∀ rs : List SearchResult, platformsFound rs = rs.countP (fun r => r.exists) := by
    intro rs
    rw [platformsFound, List.countP_eq_length_filter]
  have hl : PLATFORMS.length = 7 := rfl
  have h1 : ∀ rs : List SearchResult, digitalPresenceScore rs =
      (200 * (rs.countP (fun r => r.exists) : Int) + 7) / 14 := by
    intro rs
    rw [digitalPresenceScore, hl, hp, mathRound_sevenths]
  refine ⟨?_, hl, h1 searchResults, ?_⟩
  · rw [digitalPresenceScore, specPresenceScore, hl, hp]
  · rw [h1]
    decide

theorem networkBase_eq (followers : Option Int) :
    (match followers with
      | some f =>
        if (f != 0) = true then
          if f < 1000 then (20 : Int) else if f < 10000 then 40 else if f < 100000 then 60
          else 80
        else 0
      | none => 0) = codeNetworkBase followers := by
  cases followers with
  | none => rfl
  | some f =>
    simp only [codeNetworkBase, specNetworkBase, bne_iff_ne, ne_eq, ite_not]

theorem networkBonus_eq (profile : Profile) (platform : Platform) (b : Int) :
    (if (platform.name == "TikTok" && jsGt profile.likes 10000) = true then
      (if (platform.name == "Twitter" && jsGt profile.tweets 1000) = true then
        (if (platform.name == "GitHub" && jsGt profile.public_repos 20) = true then b + 20
          else b) + 15
        else
          (if (platform.name == "GitHub" && jsGt profile.public_repos 20) = true then b + 20
            else b)) + 25
      else
        (if (platform.name == "Twitter" && jsGt profile.tweets 1000) = true then
          (if (platform.name == "GitHub" && jsGt profile.public_repos 20) = true then b + 20
            else b) + 15
          else
            (if (platform.name == "GitHub" && jsGt profile.public_repos 20) = true then b + 20
              else b))) = b + specNetworkBonus profile platform := by
  simp only [specNetworkBonus, Bool.and_eq_true, beq_iff_eq]
  by_cases h1 : platform.name = "GitHub"
  · have h2 : ¬ platform.name = "Twitter" := by rw [h1]; decide
    have h3 : ¬ platform.name = "TikTok" := by rw [h1]; decide
    simp only [h2, h3, false_and, if_false]
    split_ifs <;> simp
  · by_cases h2 : platform.name = "Twitter"
    · have h3 : ¬ platform.name = "TikTok" := by rw [h2]; decide
      simp only [h1, h3, false_and, if_false]
      split_ifs <;> simp
    · simp only [h1, h2, false_and, if_false]
      split_ifs <;> simp

/-- Closed form of the network-overview score of a result with a profile and a platform. -/
theorem engagementScore_eq (result : SearchResult) (profile : Profile) (platform : Platform)
    (hp : result.profile = some profile) (hpl : result.platform = some platform) :
    engagementScore result =
      some (min 100 (codeNetworkBase profile.followers + specNetworkBonus profile platform)) := by
  simp only [engagementScore, hp, hpl]
  rw [networkBase_eq, networkBonus_eq, min_comm]

/-- C13 (counterexample): a GitHub result whose profile has `followers = 0`, a count below
1000, scores 0 where the formula of the claim gives 20; and an existing result with a profile
whose platform is undefined has no score at all. -/
theorem engagementScore_zero_followers :
    engagementScore (githubFound { followers := some 0 } "octocat") = some 0 ∧
    min 100 (specNetworkBase 0 + specNetworkBonus { followers := some 0 } githubPlatform) = 20 ∧
    unknownPlatformFound.exists = true ∧ engagementScore unknownPlatformFound = none := by
  decide

/-- C13 (amended): for every result with a profile and a platform, the network-overview score
is `min(100, b + bonus)`, where `b` is 20, 40, 60 or 80 for a non-zero follower count below
1000, below 10000, below 100000 and of at least 100000, and 0 when followers is absent or
zero, and `bonus` is 20 for GitHub with `public_repos > 20`, 15 for Twitter with
`tweets > 1000`, 25 for TikTok with `likes > 10000`, and 0 otherwise. -/
theorem engagementScore_formula (result : SearchResult) (profile : Profile)
    (platform : Platform) (hp : result.profile = some profile)
    (hpl : result.platform = some platform) :
    engagementScore result =
      some (min 100 (codeNetworkBase profile.followers + specNetworkBonus profile platform)) ∧
    (∀ f : Int, profile.followers = some f → f ≠ 0 →
      engagementScore result =
        some (min 100 (specNetworkBase f + specNetworkBonus profile platform))) ∧
    (profile.followers = none ∨ profile.followers = some 0 →
      engagementScore result = some (min 100 (0 + specNetworkBonus profile platform))) := by
  have h := engagementScore_eq result profile platform hp hpl
  refine ⟨h, fun f hf h0 => ?_, fun h0 => ?_⟩
  · rw [h, hf]
    simp only [codeNetworkBase, h0, if_false]
  · rw [h]
    rcases h0 with h0 | h0 <;> rw [h0] <;> simp [codeNetworkBase]

/-- Instance of C13 (amended): TikTok, 200000 followers and 20000 likes give
`min(100, 80 + 25) = 100`. -/
theorem engagementScore_formula_witness :
    tiktokStar.profile = some { followers := some 200000, likes := some 20000 } ∧
    tiktokStar.platform = some tiktokPlatform ∧
    engagementScore tiktokStar = some 100 :=
  ⟨rfl, rfl,
    ((engagementScore_formula tiktokStar { followers := some 200000, likes := some 20000 }
      tiktokPlatform rfl rfl).2.1 200000 rfl (by decide)).trans (by decide)⟩

/-! ## Claims on the number formatting -/

theorem digitChar_isDigit : ∀ d, d < 10 → (Nat.digitChar d).isDigit = true := by
  decide

theorem toDigitsCore_chars (fuel n : Nat) (acc : List Char) (c : Char)
    (h : c ∈ Nat.toDigitsCore 10 fuel n acc) : c ∈ acc ∨ c.isDigit = true := by
  induction fuel generalizing n acc with
  | zero => exact Or.inl (by simpa [Nat.toDigitsCore] using h)
  | succ fuel ih =>
    have hd : (Nat.digitChar (n % 10)).isDigit = true :=
      digitChar_isDigit (n % 10) (Nat.mod_lt n (by decide))
    simp only [Nat.toDigitsCore] at h
    split_ifs at h with h0
    · rcases List.mem_cons.1 h with h | h
      · exact Or.inr (h ▸ hd)
      · exact Or.inl h
    · rcases ih _ _ h with h | h
      · rcases List.mem_cons.1 h with h | h
        · exact Or.inr (h ▸ hd)
        · exact Or.inl h
      · exact Or.inr h

theorem toString_nat_chars (n : Nat) (c : Char) (h : c ∈ (toString n).toList) :
    c.isDigit = true := by
  have h2 : c ∈ Nat.toDigitsCore 10 (n + 1) n [] := h
  rcases toDigitsCore_chars _ _ _ _ h2 with h3 | h3
  · exact absurd h3 (List.not_mem_nil c)
  · exact h3

theorem toFixed1_small (b : Bool) (m : String) (num d : Int) (h : num < 10 ^ 21 * d) :
    toFixed1 b m num d =
      toString ((if 2 * ((10 * num) % d) > d then (10 * num) / d + 1
          else if 2 * ((10 * num) % d) < d then (10 * num) / d
          else if b = true then (10 * num) / d + 1 else (10 * num) / d) / 10) ++ "." ++
        toString ((if 2 * ((10 * num) % d) > d then (10 * num) / d + 1
          else if 2 * ((10 * num) % d) < d then (10 * num) / d
          else if b = true then (10 * num) / d + 1 else (10 * num) / d) % 10) := by
  unfold toFixed1
  rw [if_neg (not_le.2 h)]

theorem toFixed1_rounded (b : Bool) (m : String) (num d : Int) (hd : 0 < d)
    (hsmall : num < 10 ^ 21 * d) :
    IsRoundedToOneDecimal num d (toFixed1 b m num d) := by
  have h1 : d * (10 * num / d) + 10 * num % d = 10 * num := Int.ediv_add_emod (10 * num) d
  have h2 : 0 ≤ 10 * num % d := Int.emod_nonneg _ (ne_of_gt hd)
  have h3 : 10 * num % d < d := Int.emod_lt_of_pos _ hd
  have hup : 2 * (10 * num % d) ≥ d →
      2 * |10 * num - (10 * num / d + 1) * d| ≤ d := by
    intro h
    have e : 10 * num - (10 * num / d + 1) * d = -(d - 10 * num % d) := by
      have : (10 * num / d + 1) * d = d * (10 * num / d) + d := by ring
      omega
    rw [e, abs_neg, abs_of_nonneg (by omega)]
    omega
  have hdown : 2 * (10 * num % d) ≤ d →
      2 * |10 * num - (10 * num / d) * d| ≤ d := by
    intro h
    have e : 10 * num - (10 * num / d) * d = 10 * num % d := by
      have : (10 * num / d) * d = d * (10 * num / d) := by ring
      omega
    rw [e, abs_of_nonneg h2]
    exact h
  rw [toFixed1_small b m num d hsmall]
  unfold IsRoundedToOneDecimal
  split_ifs with c1 c2 c3
  · exact ⟨_, hup (by omega), rfl⟩
  · exact ⟨_, hdown (by omega), rfl⟩
  · exact ⟨_, hup (by omega), rfl⟩
  · exact ⟨_, hdown (by omega), rfl⟩

theorem toFixed1_of_not_tie (b b2 : Bool) (m : String) (num d : Int)
    (h : 2 * ((10 * num) % d) ≠ d) :
    toFixed1 b m num d = toFixed1 b2 m num d := by
  unfold toFixed1
  simp only []
  split_ifs <;> first | rfl | omega

theorem toFixed1_mantissa_irrelevant (b : Bool) (m m2 : String) (num d : Int)
    (h : num < 10 ^ 21 * d) : toFixed1 b m num d = toFixed1 b m2 num d := by
  rw [toFixed1_small b m num d h, toFixed1_small b m2 num d h]

theorem formatNumber_some (tie : Int → Int → Bool) (sci : Int → Int → String) (n : Int) :
    formatNumber tie sci (some n) =
      if n ≥ 1000000 then toFixed1 (tie n 1000000) (sci n 1000000) n 1000000 ++ "M"
      else if n ≥ 1000 then toFixed1 (tie n 1000) (sci n 1000) n 1000 ++ "K"
      else toString n := by
  have hg : ((n == 0) && (n != 0)) = false := by
    by_cases h : n = 0 <;> simp [h]
  simp only [formatNumber, hg, Bool.false_eq_true, if_false]

theorem toString_int_chars (i : Int) (c : Char) (h : c ∈ (toString i).toList) :
    c.isDigit = true ∨ c = '-' := by
  cases i with
  | ofNat n => exact Or.inl (toString_nat_chars n c h)
  | negSucc n =>
    have h2 : c ∈ ("-" ++ toString (n + 1)).toList := h
    have h3 : c ∈ "-".toList ++ (toString (n + 1)).toList := by
      simpa [String.toList, String.data_append] using h2
    rcases List.mem_append.1 h3 with h4 | h4
    · exact Or.inr (by simpa using h4)
    · exact Or.inl (toString_nat_chars (n + 1) c h4)

/-- A quotient printed with one decimal holds no letter `e`. -/
theorem rounded_has_no_e (num d : Int) (s : String) (h : IsRoundedToOneDecimal num d s) :
    'e' ∉ s.toList := by
  obtain ⟨m, _, rfl⟩ := h
  intro hm
  have h2 : 'e' ∈ (toString (m / 10)).toList ++ ".".toList ++ (toString (m % 10)).toList := by
    simpa [String.toList, String.data_append] using hm
  rcases List.mem_append.1 h2 with h3 | h3
  · rcases List.mem_append.1 h3 with h4 | h4
    · rcases toString_int_chars _ _ h4 with h5 | h5
      · exact absurd h5 (by decide)
      · exact absurd h5 (by decide)
    · exact absurd h4 (by decide)
  · rcases toString_int_chars _ _ h3 with h5 | h5
    · exact absurd h5 (by decide)
    · exact absurd h5 (by decide)

/-- C16 (counterexample): for the integer `10^27` the quotient by 1000000 is `10^21`, which
`toFixed` prints in exponent notation: `formatNumber` gives `1e+21M`, and whatever
significant digits are printed, the result holds `e+` and is not the quotient rounded to one
decimal followed by `M`. -/
theorem formatNumber_exponent_notation :
    formatNumber (fun _ _ => true) (fun _ _ => "1") (some (10 ^ 27)) = "1e+21M" ∧
    ¬ ∃ (tie : Int → Int → Bool) (sci : Int → Int → String) (s : String),
      IsRoundedToOneDecimal (10 ^ 27) 1000000 s ∧
      formatNumber tie sci (some (10 ^ 27)) = s ++ "M" := by
  have hform : ∀ (tie : Int → Int → Bool) (sci : Int → Int → String),
      formatNumber tie sci (some (10 ^ 27)) = sci (10 ^ 27) 1000000 ++ "e+" ++ "21" ++ "M" := by
    intro tie sci
    rw [formatNumber_some, if_pos (by decide)]
    unfold toFixed1
    rw [if_pos (by decide)]
    have hlen : toString ((toString ((10 : Int) ^ 27 / 1000000)).length - 1) = "21" := by
      decide
    rw [hlen]
  refine ⟨?_, ?_⟩
  · rw [hform]
    decide
  · rintro ⟨tie, sci, s, hs, heq⟩
    rw [hform] at heq
    have hno := rounded_has_no_e _ _ s hs
    have hl : (sci (10 ^ 27) 1000000 ++ "e+" ++ "21" ++ "M").toList = (s ++ "M").toList := by
      rw [heq]
    have hmem : 'e' ∈ (s ++ "M").toList := by
      rw [← hl]
      simp [String.toList, String.data_append]
    have hmem2 : 'e' ∈ s.toList ++ "M".toList := by
      simpa [String.toList, String.data_append] using hmem
    rcases List.mem_append.1 hmem2 with h | h
    · exact hno h
    · exact absurd h (by decide)

/-- C16 (amended): for every non-negative integer `n` that JavaScript represents exactly
(`n < 2^53`), `formatNumber(n)` is the decimal string of `n` when `n < 1000`, `n / 1000`
rounded to one decimal followed by `K` when `1000 ≤ n < 1000000`, `n / 1000000` rounded to one
decimal followed by `M` when `n ≥ 1000000`, and `Unknown` when the value is absent; at the
boundaries it gives `999`, `1.0K`, `1000.0K` and `1.0M` for 999, 1000, 999999 and 1000000. -/
theorem formatNumber_brackets (tie : Int → Int → Bool) (sci : Int → Int → String) (n : Int)
    (h0 : 0 ≤ n) (hsafe : n < 2 ^ 53) :
    (n < 1000 → formatNumber tie sci (some n) = toString n) ∧
    (1000 ≤ n → n < 1000000 →
      ∃ s, IsRoundedToOneDecimal n 1000 s ∧ formatNumber tie sci (some n) = s ++ "K") ∧
    (1000000 ≤ n →
      ∃ s, IsRoundedToOneDecimal n 1000000 s ∧ formatNumber tie sci (some n) = s ++ "M") ∧
    formatNumber tie sci none = "Unknown" ∧
    formatNumber tie sci (some 0) = "0" ∧
    formatNumber tie sci (some 999) = "999" ∧
    formatNumber tie sci (some 1000) = "1.0K" ∧
    formatNumber tie sci (some 999999) = "1000.0K" ∧
    formatNumber tie sci (some 1000000) = "1.0M" := by
  have hn : 0 ≤ n := h0
  have hs : n < 9007199254740992 := by
    have e : (2 : Int) ^ 53 = 9007199254740992 := by norm_num
    rw [e] at hsafe
    exact hsafe
  have e21 : (10 : Int) ^ 21 = 1000000000000000000000 := by norm_num
  refine ⟨fun h => ?_, fun h1 h2 => ?_, fun h => ?_, rfl, ?_, ?_, ?_, ?_, ?_⟩
  · rw [formatNumber_some, if_neg (by omega), if_neg (by omega)]
  · refine ⟨_, toFixed1_rounded (tie n 1000) (sci n 1000) n 1000 (by decide)
      (by rw [e21]; omega), ?_⟩
    rw [formatNumber_some, if_neg (by omega), if_pos (by omega)]
  · refine ⟨_, toFixed1_rounded (tie n 1000000) (sci n 1000000) n 1000000 (by decide)
      (by rw [e21]; omega), ?_⟩
    rw [formatNumber_some, if_pos (by omega)]
  · rw [formatNumber_some, if_neg (by decide), if_neg (by decide)]
    decide
  · rw [formatNumber_some, if_neg (by decide), if_neg (by decide)]
    decide
  · rw [formatNumber_some, if_neg (by decide), if_pos (by decide),
      toFixed1_of_not_tie _ true _ _ _ (by decide),
      toFixed1_mantissa_irrelevant _ _ "" _ _ (by decide)]
    decide
  · rw [formatNumber_some, if_neg (by decide), if_pos (by decide),
      toFixed1_of_not_tie _ true _ _ _ (by decide),
      toFixed1_mantissa_irrelevant _ _ "" _ _ (by decide)]
    decide
  · rw [formatNumber_some, if_pos (by decide), toFixed1_of_not_tie _ true _ _ _ (by decide),
      toFixed1_mantissa_irrelevant _ _ "" _ _ (by decide)]
    decide

/-- Instance of C16 (amended): 1234 is printed `1.2K` and 2500000 is printed `2.5M`, whatever
the direction of ties. -/
theorem formatNumber_brackets_witness :
    (0 : Int) ≤ 1234 ∧ (1234 : Int) < 2 ^ 53 ∧
    (∀ tie sci, ∃ s, IsRoundedToOneDecimal 1234 1000 s ∧
      formatNumber tie sci (some 1234) = s ++ "K") ∧
    (∀ tie sci, ∃ s, IsRoundedToOneDecimal 2500000 1000000 s ∧
      formatNumber tie sci (some 2500000) = s ++ "M") ∧
    formatNumber (fun _ _ => true) (fun _ _ => "") (some 1234) = "1.2K" ∧
    formatNumber (fun _ _ => true) (fun _ _ => "") (some 2500000) = "2.5M" :=
  ⟨by decide, by decide,
    fun tie sci => (formatNumber_brackets tie sci 1234 (by decide) (by decide)).2.1 (by decide)
      (by decide),
    fun tie sci => (formatNumber_brackets tie sci 2500000 (by decide) (by decide)).2.2.1
      (by decide),
    by decide, by decide⟩

/-! ## Claims on the search -/

theorem wellFormedEntries_payloadOf (entries : List (String × BackendValue)) :
    wellFormedEntries (payloadOf entries) = some entries := by
  induction entries with
  | nil => rfl
  | cons kv rest ih =>
    obtain ⟨key, value⟩ := kv
    simp only [payloadOf, List.map_cons, wellFormedEntries] at ih ⊢
    rw [ih]
    rfl

/-- State after a search whose payload has no `null` value. -/
theorem performSearch_resolved (s : AppState) (timestamp : String)
    (entries : List (String × BackendValue)) (hterm : s.searchTerm ≠ "") :
    performSearch s timestamp (FetchOutcome.resolved (payloadOf entries)) =
      { s with
        searchResults := formattedResults entries s.searchTerm,
        searchHistory := updateSearchHistory s.searchHistory s.searchTerm timestamp
          ((platformsToSearch s.selectedPlatforms).map (fun p => p.name)),
        storedHistory := some (updateSearchHistory s.searchHistory s.searchTerm timestamp
          ((platformsToSearch s.selectedPlatforms).map (fun p => p.name))),
        error := none,
        isSearching := false } := by
  simp only [performSearch, hterm, if_false, performSearchTry, normalise,
    wellFormedEntries_payloadOf]

/-- C19: after a successful search of a non-empty term `u` the result list is the normalised
payload (nothing of the previous list is kept) and the ledger is the history update of the
previous ledger with `u` and the names of the resolved platforms: its first entry has term
`u` and, as platforms, the names of the resolved platforms in registry order; the same ledger
is stored, no error is set and the search is over. -/
theorem performSearch_success (s : AppState) (timestamp : String)
    (entries : List (String × BackendValue)) (hterm : s.searchTerm ≠ "") :
    (performSearch s timestamp (FetchOutcome.resolved (payloadOf entries))).searchResults =
      formattedResults entries s.searchTerm ∧
    (performSearch s timestamp (FetchOutcome.resolved (payloadOf entries))).searchHistory =
      updateSearchHistory s.searchHistory s.searchTerm timestamp
        ((platformsToSearch s.selectedPlatforms).map (fun p => p.name)) ∧
    (performSearch s timestamp (FetchOutcome.resolved (payloadOf entries))).searchHistory.head? =
      some { term := s.searchTerm, timestamp := timestamp,
             platforms := (platformsToSearch s.selectedPlatforms).map (fun p => p.name) } ∧
    ((platformsToSearch s.selectedPlatforms).map (fun p => p.name)).Sublist
      (PLATFORMS.map (fun p => p.name)) ∧
    (performSearch s timestamp (FetchOutcome.resolved (payloadOf entries))).storedHistory =
      some (performSearch s timestamp
        (FetchOutcome.resolved (payloadOf entries))).searchHistory ∧
    (performSearch s timestamp (FetchOutcome.resolved (payloadOf entries))).error = none ∧
    (performSearch s timestamp (FetchOutcome.resolved (payloadOf entries))).isSearching =
      false := by
  rw [performSearch_resolved s timestamp entries hterm]
  refine ⟨rfl, rfl, head_updateSearchHistory _ _ _ _, ?_, rfl, rfl, rfl⟩
  apply List.Sublist.map
  unfold platformsToSearch
  split_ifs
  · exact List.filter_sublist _
  · exact List.Sublist.refl _

/-- Instance of C19: the first search of `octocat`, no platform selected, answered with the
payload of GitHub and Twitter. -/
theorem performSearch_success_witness :
    freshState.searchTerm ≠ "" ∧
    (performSearch freshState "2024-06-01T12:00:00.000Z"
      (FetchOutcome.resolved (payloadOf githubTwitterPayload))).searchResults =
      formattedResults githubTwitterPayload "octocat" ∧
    (performSearch freshState "2024-06-01T12:00:00.000Z"
      (FetchOutcome.resolved (payloadOf githubTwitterPayload))).searchHistory.head? =
      some { term := "octocat", timestamp := "2024-06-01T12:00:00.000Z",
             platforms := ["LinkedIn", "Twitter", "GitHub", "Instagram", "Reddit", "TikTok",
               "Spotify"] } :=
  have hterm : freshState.searchTerm ≠ "" := by decide
  have h := performSearch_success freshState "2024-06-01T12:00:00.000Z" githubTwitterPayload
    hterm
  ⟨hterm, h.1, h.2.2.1⟩

/-! ## Claims on failed and rejected searches -/

/-- A needle that holds a character which is no digit and does not occur in the text before
the status is not included in the message of a response that is not OK. -/
theorem not_includes_status (status : Nat) (needle : String) (c : Char)
    (hc : c ∈ needle.toList) (hd : c.isDigit = false)
    (hp : c ∉ "Server responded with status: ".toList) :
    includes ("Server responded with status: " ++ toString status) needle = false := by
  unfold includes
  rw [decide_eq_false_iff_not]
  intro hin
  have hm : c ∈ ("Server responded with status: " ++ toString status).toList := hin.subset hc
  have hm2 : c ∈ "Server responded with status: ".toList ++ (toString status).toList := by
    simpa [String.toList, String.data_append] using hm
  rcases List.mem_append.1 hm2 with h | h
  · exact hp h
  · rw [toString_nat_chars status c h] at hd
    exact absurd hd (by decide)

theorem includes_suffix (a b : String) : includes (a ++ b) b = true := by
  unfold includes
  rw [decide_eq_true_iff]
  refine ⟨a.toList, [], ?_⟩
  simp [String.toList, String.data_append]

/-- State after a search whose `try` block throws an error of message `message`. -/
theorem performSearch_of_error (s : AppState) (timestamp : String) (response : FetchOutcome)
    (message : String) (hterm : s.searchTerm ≠ "")
    (herr : searchError s timestamp response = some message) :
    performSearch s timestamp response =
      { performSearchCatch { s with isSearching := true, error := none } message with
        isSearching := false } := by
  unfold searchError at herr
  simp only [performSearch, hterm, if_false]
  cases hr : performSearchTry { s with isSearching := true, error := none } timestamp response with
  | ok s2 => rw [hr] at herr; exact absurd herr (by simp)
  | error m =>
    rw [hr] at herr
    simp only [Option.some.injEq] at herr
    rw [herr]

theorem searchError_notOk (s : AppState) (timestamp : String) (status : Nat) :
    searchError s timestamp (FetchOutcome.notOk status) =
      some ("Server responded with status: " ++ toString status) := rfl

theorem searchError_failed (s : AppState) (timestamp message : String) :
    searchError s timestamp (FetchOutcome.failed message) = some message := rfl

theorem searchError_null (s : AppState) (timestamp : String)
    (data : List (String × Option BackendValue)) (h : wellFormedEntries data = none) :
    searchError s timestamp (FetchOutcome.resolved data) = some nullValueMessage := by
  simp only [searchError, performSearchTry, normalise, h]

theorem performSearchCatch_unreachable (s : AppState) (message : String)
    (h : includes message "Failed to fetch" = true ∨ includes message "NetworkError" = true) :
    performSearchCatch s message =
      { s with error := some "Cannot connect to the API server. Make sure the backend is running.",
               apiStatus := ApiStatus.offline } := by
  have hb : (includes message "Failed to fetch" || includes message "NetworkError") = true := by
    rcases h with h | h <;> simp [h]
  simp only [performSearchCatch, hb, if_true]

theorem performSearchCatch_requestFailed (s : AppState) (message : String)
    (h : ¬ (includes message "Failed to fetch" = true ∨ includes message "NetworkError" = true)) :
    performSearchCatch s message =
      { s with error := some ("Failed to search profiles: " ++ message) } := by
  have hb : (includes message "Failed to fetch" || includes message "NetworkError") = false := by
    rw [Bool.or_eq_false_iff]
    constructor
    · exact Bool.eq_false_iff.2 (fun h1 => h (Or.inl h1))
    · exact Bool.eq_false_iff.2 (fun h1 => h (Or.inr h1))
  simp only [performSearchCatch, hb, Bool.false_eq_true, if_false]

theorem status_message_not_unreachable (status : Nat) :
    ¬ (includes ("Server responded with status: " ++ toString status) "Failed to fetch" = true ∨
      includes ("Server responded with status: " ++ toString status) "NetworkError" = true) := by
  have h1 := not_includes_status status "Failed to fetch" 'F' (by decide) (by decide) (by decide)
  have h2 := not_includes_status status "NetworkError" 'N' (by decide) (by decide) (by decide)
  rw [h1, h2]
  simp

/-- C21: on a failed search of a non-empty term, when the message of the error contains
`Failed to fetch` or `NetworkError` the availability flag is set to offline (and the
connection text is surfaced), and otherwise the flag is left as it was and the text
`Failed to search profiles: ` followed by the message is surfaced; a response that is not OK
is of the second kind for every status code, and its surfaced text contains the status. -/
theorem performSearch_classification (s : AppState) (timestamp : String)
    (hterm : s.searchTerm ≠ "") :
    (∀ (response : FetchOutcome) (message : String),
      searchError s timestamp response = some message →
      ((includes message "Failed to fetch" = true ∨ includes message "NetworkError" = true) →
        (performSearch s timestamp response).apiStatus = ApiStatus.offline ∧
        (performSearch s timestamp response).error =
          some "Cannot connect to the API server. Make sure the backend is running.") ∧
      (¬ (includes message "Failed to fetch" = true ∨ includes message "NetworkError" = true) →
        (performSearch s timestamp response).apiStatus = s.apiStatus ∧
        (performSearch s timestamp response).error =
          some ("Failed to search profiles: " ++ message))) ∧
    (∀ status : Nat,
      (performSearch s timestamp (FetchOutcome.notOk status)).apiStatus = s.apiStatus ∧
      (performSearch s timestamp (FetchOutcome.notOk status)).error =
        some ("Failed to search profiles: " ++
          ("Server responded with status: " ++ toString status)) ∧
      includes ("Failed to search profiles: " ++
        ("Server responded with status: " ++ toString status)) (toString status) = true) := by
  refine ⟨fun response message herr => ⟨fun h => ?_, fun h => ?_⟩, fun status => ?_⟩
  · rw [performSearch_of_error s timestamp response message hterm herr,
      performSearchCatch_unreachable _ _ h]
    exact ⟨rfl, rfl⟩
  · rw [performSearch_of_error s timestamp response message hterm herr,
      performSearchCatch_requestFailed _ _ h]
    exact ⟨rfl, rfl⟩
  · rw [performSearch_of_error s timestamp _ _ hterm (searchError_notOk s timestamp status),
      performSearchCatch_requestFailed _ _ (status_message_not_unreachable status)]
    refine ⟨rfl, rfl, ?_⟩
    rw [← String.append_assoc]
    exact includes_suffix _ _

/-- Instance of C21: a response with status 503, and a rejected `fetch`. -/
theorem performSearch_classification_witness :
    usedState.searchTerm ≠ "" ∧
    (performSearch usedState "2024-06-01T12:00:00.000Z" (FetchOutcome.notOk 503)).apiStatus =
      ApiStatus.online ∧
    (performSearch usedState "2024-06-01T12:00:00.000Z" (FetchOutcome.notOk 503)).error =
      some "Failed to search profiles: Server responded with status: 503" ∧
    (performSearch usedState "2024-06-01T12:00:00.000Z"
      (FetchOutcome.failed "Failed to fetch")).apiStatus = ApiStatus.offline :=
  have hterm : usedState.searchTerm ≠ "" := by decide
  have h := performSearch_classification usedState "2024-06-01T12:00:00.000Z" hterm
  ⟨hterm, (h.2 503).1, (h.2 503).2.1,
    ((h.1 (FetchOutcome.failed "Failed to fetch") "Failed to fetch" rfl).1
      (Or.inl (by decide))).1⟩

/-- C22: a search of a non-empty term that fails, by a transport failure, by a response that
is not OK or by a payload on which the normalisation throws, leaves the result list and the
ledger (in memory and stored) as they were and surfaces an error message. -/
theorem performSearch_failure_frame (s : AppState) (timestamp : String)
    (hterm : s.searchTerm ≠ "") :
    (∀ message : String, searchError s timestamp (FetchOutcome.failed message) = some message) ∧
    (∀ status : Nat, searchError s timestamp (FetchOutcome.notOk status) =
      some ("Server responded with status: " ++ toString status)) ∧
    (∀ data : List (String × Option BackendValue), wellFormedEntries data = none →
      searchError s timestamp (FetchOutcome.resolved data) = some nullValueMessage) ∧
    (∀ (response : FetchOutcome) (message : String),
      searchError s timestamp response = some message →
      (performSearch s timestamp response).searchResults = s.searchResults ∧
      (performSearch s timestamp response).searchHistory = s.searchHistory ∧
      (performSearch s timestamp response).storedHistory = s.storedHistory ∧
      (performSearch s timestamp response).isSearching = false ∧
      ∃ text, (performSearch s timestamp response).error = some text) := by
  refine ⟨searchError_failed s timestamp, searchError_notOk s timestamp,
    searchError_null s timestamp, fun response message herr => ?_⟩
  rw [performSearch_of_error s timestamp response message hterm herr]
  by_cases h : includes message "Failed to fetch" = true ∨ includes message "NetworkError" = true
  · rw [performSearchCatch_unreachable _ _ h]
    exact ⟨rfl, rfl, rfl, rfl, _, rfl⟩
  · rw [performSearchCatch_requestFailed _ _ h]
    exact ⟨rfl, rfl, rfl, rfl, _, rfl⟩

/-- Instance of C22: a payload whose `github` value is `null`. -/
theorem performSearch_failure_frame_witness :
    usedState.searchTerm ≠ "" ∧
    (performSearch usedState "2024-06-01T12:00:00.000Z"
      (FetchOutcome.resolved [("github", none)])).searchResults = [twitterNotFound "torvalds"] ∧
    (performSearch usedState "2024-06-01T12:00:00.000Z"
      (FetchOutcome.resolved [("github", none)])).searchHistory = smallLedger :=
  have hterm : usedState.searchTerm ≠ "" := by decide
  have h := (performSearch_failure_frame usedState "2024-06-01T12:00:00.000Z" hterm).2.2.2
    (FetchOutcome.resolved [("github", none)]) nullValueMessage rfl
  ⟨hterm, h.1, h.2.1⟩

/-- C23: with an empty search term `performSearch` returns at once: the state (results,
ledger, error, availability flag, searching flag, stored ledger) is unchanged whatever the
backend would answer, and no request is issued. -/
theorem performSearch_empty_term (s : AppState) (timestamp : String) (response : FetchOutcome)
    (hterm : s.searchTerm = "") :
    performSearch s timestamp response = s ∧ requestOf s = none := by
  simp [performSearch, requestOf, hterm]

/-- Instance of C23: a state with an empty term, an old error and an unknown backend. -/
theorem performSearch_empty_term_witness :
    emptyTermState.searchTerm = "" ∧
    performSearch emptyTermState "2024-06-01T12:00:00.000Z" (FetchOutcome.notOk 500) =
      emptyTermState ∧
    requestOf emptyTermState = none :=
  ⟨rfl, performSearch_empty_term emptyTermState "2024-06-01T12:00:00.000Z"
    (FetchOutcome.notOk 500) rfl⟩

/-! ## The end-to-end search -/

theorem octocatPayload_results :
    (formattedResults octocatPayload "octocat").length = 7 ∧
    (formattedResults octocatPayload "octocat").countP (fun r => r.exists) = 1 ∧
    ∀ r ∈ formattedResults octocatPayload "octocat", r.exists = true →
      r = githubFound octocatProfile "octocat" := by
  decide

/-- C24: searching `octocat` with no platform selected, from an empty ledger, against a
payload with one key per registered platform (in any order) where only `github` exists, with
the profile `{username: 'octocat', followers: 5000, public_repos: 8}`, yields 7 results of
which exactly one has `exists = true`, the GitHub record, whose `calculateEngagementScore` is
`30 + 0 + min(8 * 2, 20) = 46`, and a ledger whose only entry has term `octocat` and the 7
platform names. -/
theorem performSearch_octocat (s : AppState) (timestamp : String)
    (entries : List (String × BackendValue))
    (hterm : s.searchTerm = "octocat") (hsel : s.selectedPlatforms = [])
    (hledger : s.searchHistory = []) (hperm : entries.Perm octocatPayload) :
    (performSearch s timestamp (FetchOutcome.resolved (payloadOf entries))).searchResults.length
      = 7 ∧
    (performSearch s timestamp (FetchOutcome.resolved (payloadOf entries))).searchResults.countP
      (fun r => r.exists) = 1 ∧
    (∀ r ∈ (performSearch s timestamp
        (FetchOutcome.resolved (payloadOf entries))).searchResults,
      r.exists = true → r = githubFound octocatProfile "octocat") ∧
    calculateEngagementScore octocatProfile githubPlatform = 46 ∧
    (30 : Int) + 0 + min (8 * 2) 20 = 46 ∧
    (performSearch s timestamp (FetchOutcome.resolved (payloadOf entries))).searchHistory =
      [ { term := "octocat", timestamp := timestamp,
          platforms := ["LinkedIn", "Twitter", "GitHub", "Instagram", "Reddit", "TikTok",
            "Spotify"] } ] := by
  have hne : s.searchTerm ≠ "" := by rw [hterm]; decide
  rw [performSearch_resolved s timestamp entries hne]
  simp only [hterm, hsel, hledger]
  have hp : (formattedResults entries "octocat").Perm (formattedResults octocatPayload "octocat") :=
    hperm.map _
  obtain ⟨h1, h2, h3⟩ := octocatPayload_results
  refine ⟨by rw [hp.length_eq, h1], by rw [hp.countP_eq, h2],
    fun r hr => h3 r (hp.subset hr), by decide, by decide, rfl⟩

/-- Instance of C24: the payload in registry order, from the fresh state. -/
theorem performSearch_octocat_witness :
    freshState.searchTerm = "octocat" ∧ freshState.selectedPlatforms = [] ∧
    freshState.searchHistory = [] ∧ octocatPayload.Perm octocatPayload ∧
    (performSearch freshState "2024-06-01T12:00:00.000Z"
      (FetchOutcome.resolved (payloadOf octocatPayload))).searchResults.length = 7 ∧
    (performSearch freshState "2024-06-01T12:00:00.000Z"
      (FetchOutcome.resolved (payloadOf octocatPayload))).searchResults.countP
      (fun r => r.exists) = 1 :=
  have h := performSearch_octocat freshState "2024-06-01T12:00:00.000Z" octocatPayload rfl rfl
    rfl (List.Perm.refl _)
  ⟨rfl, rfl, rfl, List.Perm.refl _, h.1, h.2.1⟩

/-! ## Claims on the stored history -/

/-- C25 (counterexample): the stored value `5` parses, so the load takes the number as the
value of `searchHistory`: the in-memory state is not the empty ledger. -/
theorem loadSearchHistory_foreign_value :
    jsonParse (StoredValue.otherJson "5") = Except.ok (HistoryState.foreign "5") ∧
    loadSearchHistory (some (StoredValue.otherJson "5")) = HistoryState.foreign "5" ∧
    loadSearchHistory (some (StoredValue.otherJson "5")) ≠ HistoryState.ledger [] :=
  ⟨rfl, rfl, by decide⟩

/-- C25 (amended): for every stored value on which `JSON.parse` throws, and for the empty
string, the load does not fail and the in-memory ledger is the empty sequence; a missing value
also yields the empty ledger; a stored value that parses is taken as the value of
`searchHistory` as it is, a ledger when it is the serialisation of one. -/
theorem loadSearchHistory_cases :
    loadSearchHistory none = HistoryState.ledger [] ∧
    (∀ raw : String,
      loadSearchHistory (some (StoredValue.unparseable raw)) = HistoryState.ledger []) ∧
    (∀ history : List HistoryEntry,
      loadSearchHistory (some (StoredValue.serialised history)) = HistoryState.ledger history) ∧
    (∀ raw : String,
      loadSearchHistory (some (StoredValue.otherJson raw)) = HistoryState.foreign raw) := by
  refine ⟨rfl, fun raw => ?_, fun _ => rfl, fun _ => rfl⟩
  simp only [loadSearchHistory, StoredValue.truthy, jsonParse]
  split_ifs <;> rfl

theorem performSearchStoring_written (s : AppState) (timestamp : String)
    (response : FetchOutcome) :
    performSearchStoring StoreOutcome.written s timestamp response =
      performSearch s timestamp response := by
  unfold performSearchStoring performSearch
  split_ifs with hterm
  · rfl
  · cases response with
    | failed message => rfl
    | notOk status => rfl
    | resolved data =>
      simp only [performSearchTryStoring, performSearchTry]
      cases normalise data s.searchTerm <;> rfl

/-- State after a search whose payload has no `null` value and whose storage write throws. -/
theorem performSearchStoring_throws (s : AppState) (timestamp message : String)
    (entries : List (String × BackendValue)) (hterm : s.searchTerm ≠ "") :
    performSearchStoring (StoreOutcome.throws message) s timestamp
        (FetchOutcome.resolved (payloadOf entries)) =
      { performSearchCatch
          { s with
            searchResults := formattedResults entries s.searchTerm,
            searchHistory := updateSearchHistory s.searchHistory s.searchTerm timestamp
              ((platformsToSearch s.selectedPlatforms).map (fun p => p.name)),
            isSearching := true,
            error := none } message with
        isSearching := false } := by
  simp only [performSearchStoring, hterm, if_false, performSearchTryStoring, normalise,
    wellFormedEntries_payloadOf]

theorem performSearchCatch_frame (s : AppState) (message : String) :
    (performSearchCatch s message).searchResults = s.searchResults ∧
    (performSearchCatch s message).searchHistory = s.searchHistory ∧
    (performSearchCatch s message).storedHistory = s.storedHistory ∧
    ∃ text, (performSearchCatch s message).error = some text := by
  unfold performSearchCatch
  split_ifs
  · exact ⟨rfl, rfl, rfl, _, rfl⟩
  · exact ⟨rfl, rfl, rfl, _, rfl⟩

/-- C26 (counterexample): a search of `octocat` whose storage write throws: the in-memory
ledger has the new entry first, the stored ledger is still the old one, so the two differ
after this mutating operation. -/
theorem stored_history_out_of_sync :
    (performSearchStoring (StoreOutcome.throws "QuotaExceededError") usedState
      "2024-06-01T12:00:00.000Z"
      (FetchOutcome.resolved (payloadOf githubTwitterPayload))).searchHistory =
      usedLedgerAfter ∧
    (performSearchStoring (StoreOutcome.throws "QuotaExceededError") usedState
      "2024-06-01T12:00:00.000Z"
      (FetchOutcome.resolved (payloadOf githubTwitterPayload))).storedHistory =
      some smallLedger ∧
    (performSearchStoring (StoreOutcome.throws "QuotaExceededError") usedState
      "2024-06-01T12:00:00.000Z"
      (FetchOutcome.resolved (payloadOf githubTwitterPayload))).storedHistory ≠
    some (performSearchStoring (StoreOutcome.throws "QuotaExceededError") usedState
      "2024-06-01T12:00:00.000Z"
      (FetchOutcome.resolved (payloadOf githubTwitterPayload))).searchHistory := by
  decide

/-- C26 (amended): after a record whose storage write returns, the value stored under the key
is the serialisation of exactly the new in-memory ledger, and a subsequent load returns the
in-memory ledger whenever `JSON.parse` reads that serialisation back; after the clear the
in-memory ledger is empty and the key is erased, so a subsequent load returns the in-memory
ledger; after a record whose storage write throws, the in-memory ledger is the new one, the
stored value is the one from before and an error is surfaced. -/
theorem stored_history_in_sync (s : AppState) :
    (∀ (timestamp : String) (entries : List (String × BackendValue)), s.searchTerm ≠ "" →
      (performSearchStoring StoreOutcome.written s timestamp
        (FetchOutcome.resolved (payloadOf entries))).searchHistory =
        updateSearchHistory s.searchHistory s.searchTerm timestamp
          ((platformsToSearch s.selectedPlatforms).map (fun p => p.name)) ∧
      (performSearchStoring StoreOutcome.written s timestamp
        (FetchOutcome.resolved (payloadOf entries))).storedHistory =
        some (performSearchStoring StoreOutcome.written s timestamp
          (FetchOutcome.resolved (payloadOf entries))).searchHistory ∧
      ∀ (stringify : List HistoryEntry → String) (parse : String → StoredValue),
        parse (stringify (performSearchStoring StoreOutcome.written s timestamp
            (FetchOutcome.resolved (payloadOf entries))).searchHistory) =
          StoredValue.serialised (performSearchStoring StoreOutcome.written s timestamp
            (FetchOutcome.resolved (payloadOf entries))).searchHistory →
        loadSearchHistory
            (((performSearchStoring StoreOutcome.written s timestamp
              (FetchOutcome.resolved (payloadOf entries))).storedHistory.map stringify).map
              parse) =
          HistoryState.ledger (performSearchStoring StoreOutcome.written s timestamp
            (FetchOutcome.resolved (payloadOf entries))).searchHistory) ∧
    (clearSearchHistory s).searchHistory = [] ∧
    (clearSearchHistory s).storedHistory = none ∧
    storageOf (clearSearchHistory s) = none ∧
    loadSearchHistory (storageOf (clearSearchHistory s)) =
      HistoryState.ledger (clearSearchHistory s).searchHistory ∧
    (∀ (timestamp message : String) (entries : List (String × BackendValue)),
      s.searchTerm ≠ "" →
      (performSearchStoring (StoreOutcome.throws message) s timestamp
        (FetchOutcome.resolved (payloadOf entries))).searchHistory =
        updateSearchHistory s.searchHistory s.searchTerm timestamp
          ((platformsToSearch s.selectedPlatforms).map (fun p => p.name)) ∧
      (performSearchStoring (StoreOutcome.throws message) s timestamp
        (FetchOutcome.resolved (payloadOf entries))).storedHistory = s.storedHistory ∧
      ∃ text, (performSearchStoring (StoreOutcome.throws message) s timestamp
        (FetchOutcome.resolved (payloadOf entries))).error = some text) := by
  refine ⟨fun timestamp entries hterm => ?_, rfl, rfl, rfl, rfl,
    fun timestamp message entries hterm => ?_⟩
  · rw [performSearchStoring_written, performSearch_resolved s timestamp entries hterm]
    refine ⟨rfl, rfl, fun stringify parse hround => ?_⟩
    simp only [Option.map_some'] at hround ⊢
    rw [hround]
    rfl
  · rw [performSearchStoring_throws s timestamp message entries hterm]
    obtain ⟨_, h2, h3, h4⟩ := performSearchCatch_frame
      { s with
        searchResults := formattedResults entries s.searchTerm,
        searchHistory := updateSearchHistory s.searchHistory s.searchTerm timestamp
          ((platformsToSearch s.selectedPlatforms).map (fun p => p.name)),
        isSearching := true,
        error := none } message
    exact ⟨h2, h3, h4⟩

/-- Instance of C26 (amended): a search of `octocat` on a state that holds a ledger, with a
serialisation that is read back. -/
theorem stored_history_in_sync_witness :
    usedState.searchTerm ≠ "" ∧
    (performSearchStoring StoreOutcome.written usedState "2024-06-01T12:00:00.000Z"
      (FetchOutcome.resolved (payloadOf githubTwitterPayload))).searchHistory =
      usedLedgerAfter ∧
    sampleParse (sampleStringify usedLedgerAfter) = StoredValue.serialised usedLedgerAfter ∧
    loadSearchHistory
      (((performSearchStoring StoreOutcome.written usedState "2024-06-01T12:00:00.000Z"
        (FetchOutcome.resolved (payloadOf githubTwitterPayload))).storedHistory.map
        sampleStringify).map sampleParse) =
    HistoryState.ledger usedLedgerAfter :=
  have hterm : usedState.searchTerm ≠ "" := by decide
  have hround : sampleParse (sampleStringify usedLedgerAfter) =
      StoredValue.serialised usedLedgerAfter := by decide
  ⟨hterm, by decide, hround,
    ((stored_history_in_sync usedState).1 "2024-06-01T12:00:00.000Z" githubTwitterPayload
      hterm).2.2 sampleStringify sampleParse hround⟩

/-! ## Claims on the helpers of ProfileCard.js -/

/-- C27: the two copies of `formatNumber`, of App.js and of ProfileCard.js, return the same
string for every input: an absent value, zero and every number (whatever `toFixed` prints
where its output depends on the binary representation). -/
theorem formatNumber_copies_agree (tie : Int → Int → Bool) (sci : Int → Int → String)
    (num : Option Int) :
    ProfileCard.formatNumber tie sci num = formatNumber tie sci num ∧
    ProfileCard.formatNumber tie sci none = "Unknown" ∧ formatNumber tie sci none = "Unknown" ∧
    ProfileCard.formatNumber tie sci (some 0) = "0" ∧ formatNumber tie sci (some 0) = "0" := by
  refine ⟨rfl, rfl, rfl, ?_, ?_⟩
  · show formatNumber tie sci (some 0) = "0"
    rw [formatNumber_some, if_neg (by decide), if_neg (by decide)]
    decide
  · rw [formatNumber_some, if_neg (by decide), if_neg (by decide)]
    decide

/-! ## Bounds of the network overview -/

theorem digitalPresenceScore_closed (rs : List SearchResult) :
    digitalPresenceScore rs = (200 * (platformsFound rs : Int) + 7) / 14 := by
  have hl : PLATFORMS.length = 7 := rfl
  rw [digitalPresenceScore, hl, mathRound_sevenths]

theorem platformsFound_le_length (rs : List SearchResult) : platformsFound rs ≤ rs.length := by
  unfold platformsFound
  exact List.length_filter_le _ _

theorem length_le_of_registered_keys (data : List (String × BackendValue))
    (hnodup : (data.map (fun kv => kv.1)).Nodup)
    (hreg : ∀ kv ∈ data, kv.1 ∈ PLATFORMS.map (fun p => p.apiEndpoint)) :
    data.length ≤ 7 := by
  have hsub : data.map (fun kv => kv.1) ⊆ PLATFORMS.map (fun p => p.apiEndpoint) := by
    intro k hk
    obtain ⟨kv, hkv, rfl⟩ := List.mem_map.1 hk
    exact hreg kv hkv
  have h := (List.subperm_of_subset hnodup hsub).length_le
  simpa [PLATFORMS] using h

theorem engagementBars_platform (rs : List SearchResult) (bars : List (String × Int))
    (h : engagementBars rs = some bars) : ∀ r ∈ rs, r.platform ≠ none := by
  induction rs generalizing bars with
  | nil => intro r hr; exact absurd hr (List.not_mem_nil r)
  | cons x xs ih =>
    simp only [engagementBars] at h
    cases hx : engagementBar x with
    | none => rw [hx] at h; exact absurd h (by simp)
    | some bar =>
      rw [hx] at h
      cases hrest : engagementBars xs with
      | none => rw [hrest] at h; exact absurd h (by simp)
      | some rest =>
        intro r hr
        rcases List.mem_cons.1 hr with hr | hr
        · subst hr
          intro hnone
          unfold engagementBar at hx
          cases hs : engagementScore r with
          | none => rw [hs] at hx; exact absurd hx (by simp)
          | some score => rw [hs, hnone] at hx; exact absurd hx (by simp)
        · exact ih rest hrest r hr

/-- When the network tab computes a score, every found result has a platform. -/
theorem networkOverviewScore_some (rs : List SearchResult) (score : Int)
    (h : networkOverviewScore rs = some score) :
    score = digitalPresenceScore rs ∧ ∀ r ∈ rs, r.exists = true → r.platform ≠ none := by
  unfold networkOverviewScore at h
  split_ifs at h with hlen
  cases hc : platformEngagementChart rs with
  | none => rw [hc] at h; exact absurd h (by simp)
  | some bars =>
    rw [hc] at h
    simp only [Option.some.injEq] at h
    refine ⟨h.symm, fun r hr hex => ?_⟩
    exact engagementBars_platform _ bars hc r (List.mem_filter.2 ⟨hr, by simpa using hex⟩)

/-- For a payload with pairwise distinct keys whose found records all have a platform, at
most 7 records are found. -/
theorem platformsFound_le_registry (data : List (String × BackendValue)) (searchTerm : String)
    (hkeys : (data.map (fun kv => kv.1)).Nodup)
    (hplat : ∀ r ∈ formattedResults data searchTerm, r.exists = true → r.platform ≠ none) :
    platformsFound (formattedResults data searchTerm) ≤ 7 := by
  have hcount : platformsFound (formattedResults data searchTerm) =
      (data.filter (fun kv => kv.2.exists)).length := by
    simp [platformsFound, formattedResults, List.filter_map, Function.comp_def]
  rw [hcount]
  apply length_le_of_registered_keys
  · exact hkeys.sublist ((List.filter_sublist data).map _)
  · intro kv hkv
    obtain ⟨hmem, hex⟩ := List.mem_filter.1 hkv
    obtain ⟨r, hr, hrp, hre⟩ : ∃ r ∈ formattedResults data searchTerm,
        r.platform = findByEndpoint kv.1 ∧ r.exists = kv.2.exists := by
      unfold formattedResults
      exact ⟨_, List.mem_map.2 ⟨kv, hmem, rfl⟩, rfl, rfl⟩
    have hne := hplat r hr (by rw [hre]; exact hex)
    rw [hrp] at hne
    cases hf : findByEndpoint kv.1 with
    | none => exact absurd hf hne
    | some p =>
      obtain ⟨hp, hkey⟩ := findByEndpoint_eq_some kv.1 p hf
      exact List.mem_map.2 ⟨p, hp, hkey⟩

/-- The payload of eight found keys, one of them unregistered: the Platform Engagement chart
throws on the record without platform and the network tab computes no score. -/
theorem networkOverviewScore_eight_keys :
    platformEngagementChart (formattedResults eightFoundPayload "octocat") = none ∧
    networkOverviewScore (formattedResults eightFoundPayload "octocat") = none := by
  decide

/-- C28: for every backend payload (a mapping, so with pairwise distinct keys), the Digital
Presence Score that the network tab computes from the normalised result list lies between 0
and 100 inclusive, and the Platforms Used numerator does not exceed the number of registered
platforms; the same bounds hold whenever every found record has a platform. -/
theorem networkOverviewScore_bounds (data : List (String × BackendValue))
    (searchTerm : String) (hkeys : (data.map (fun kv => kv.1)).Nodup) :
    (∀ score : Int, networkOverviewScore (formattedResults data searchTerm) = some score →
      score = digitalPresenceScore (formattedResults data searchTerm) ∧
      0 ≤ score ∧ score ≤ 100 ∧
      platformsFound (formattedResults data searchTerm) ≤ PLATFORMS.length) ∧
    ((∀ r ∈ formattedResults data searchTerm, r.exists = true → r.platform ≠ none) →
      0 ≤ digitalPresenceScore (formattedResults data searchTerm) ∧
      digitalPresenceScore (formattedResults data searchTerm) ≤ 100 ∧
      platformsFound (formattedResults data searchTerm) ≤ PLATFORMS.length) := by
  have key : (∀ r ∈ formattedResults data searchTerm, r.exists = true → r.platform ≠ none) →
      0 ≤ digitalPresenceScore (formattedResults data searchTerm) ∧
      digitalPresenceScore (formattedResults data searchTerm) ≤ 100 ∧
      platformsFound (formattedResults data searchTerm) ≤ PLATFORMS.length := by
    intro hplat
    have h7 := platformsFound_le_registry data searchTerm hkeys hplat
    have hl : PLATFORMS.length = 7 := rfl
    rw [digitalPresenceScore_closed, hl]
    refine ⟨by omega, by omega, h7⟩
  refine ⟨fun score hscore => ?_, key⟩
  obtain ⟨heq, hplat⟩ := networkOverviewScore_some _ score hscore
  obtain ⟨h1, h2, h3⟩ := key hplat
  rw [heq]
  exact ⟨rfl, h1, h2, h3⟩

/-- Instance of C28: the payload of the seven registered keys, of which GitHub is found. -/
theorem networkOverviewScore_bounds_witness :
    (octocatPayload.map (fun kv => kv.1)).Nodup ∧
    networkOverviewScore (formattedResults octocatPayload "octocat") = some 14 ∧
    (0 : Int) ≤ 14 ∧ (14 : Int) ≤ 100 ∧
    platformsFound (formattedResults octocatPayload "octocat") ≤ PLATFORMS.length :=
  have hn : (octocatPayload.map (fun kv => kv.1)).Nodup := by decide
  have hs : networkOverviewScore (formattedResults octocatPayload "octocat") = some 14 := by
    have hc : platformEngagementChart (formattedResults octocatPayload "octocat") =
        some [("GitHub", 40)] := by decide
    have hl : (formattedResults octocatPayload "octocat").length > 0 := by decide
    have hd : digitalPresenceScore (formattedResults octocatPayload "octocat") = 14 := by
      rw [digitalPresenceScore_closed]
      decide
    simp only [networkOverviewScore, hl, if_true, hc, hd]
  have h := (networkOverviewScore_bounds octocatPayload "octocat" hn).1 14 hs
  ⟨hn, hs, h.2.1, h.2.2.1, h.2.2.2⟩

/-! ## Claims on the platform toggle -/

theorem togglePlatform_of_not_mem (prev : List String) (p : String) (h : p ∉ prev) :
    togglePlatform prev p = prev ++ [p] := by
  simp [togglePlatform, h]

theorem togglePlatform_of_mem (prev : List String) (p : String) (h : p ∈ prev) :
    togglePlatform prev p = prev.filter (fun n => n != p) := by
  simp [togglePlatform, h]

/-- C29: on a selection without duplicate names, toggling `p` appends it when it is absent
and removes it when it is present, leaves the other names as they are, never introduces a
duplicate, and toggling `p` twice gives a selection with the same names as the original, the
identical list when `p` was absent at first. -/
theorem togglePlatform_involution (prev : List String) (p : String) (hn : prev.Nodup) :
    (p ∉ prev → togglePlatform prev p = prev ++ [p]) ∧
    (p ∈ prev → togglePlatform prev p = prev.filter (fun n => n != p) ∧
      p ∉ togglePlatform prev p) ∧
    (∀ n, n ≠ p → (n ∈ togglePlatform prev p ↔ n ∈ prev)) ∧
    (togglePlatform prev p).Nodup ∧
    (∀ n, n ∈ togglePlatform (togglePlatform prev p) p ↔ n ∈ prev) ∧
    (togglePlatform (togglePlatform prev p) p).Nodup ∧
    (p ∉ prev → togglePlatform (togglePlatform prev p) p = prev) := by
  by_cases hp : p ∈ prev
  · have h1 := togglePlatform_of_mem prev p hp
    have hnot : p ∉ prev.filter (fun n => n != p) := by simp [List.mem_filter]
    have h2 : togglePlatform (prev.filter (fun n => n != p)) p =
        prev.filter (fun n => n != p) ++ [p] := togglePlatform_of_not_mem _ _ hnot
    rw [h1, h2]
    refine ⟨fun h => absurd hp h, fun _ => ⟨rfl, hnot⟩, fun n hne => ?_, hn.filter _,
      fun n => ?_, ?_, fun h => absurd hp h⟩
    · simp [List.mem_filter, hne]
    · by_cases hne : n = p
      · subst hne; simp [hp]
      · simp [List.mem_filter, hne]
    · rw [List.nodup_append]
      refine ⟨hn.filter _, List.nodup_singleton p, ?_⟩
      intro a ha hb
      rw [List.mem_singleton] at hb
      subst hb
      exact hnot ha
  · have h1 := togglePlatform_of_not_mem prev p hp
    have hmem : p ∈ prev ++ [p] := by simp
    have hf : (prev ++ [p]).filter (fun n => n != p) = prev := by
      rw [List.filter_append]
      have ha : prev.filter (fun n => n != p) = prev := by
        apply List.filter_eq_self.2
        intro a ha
        have : a ≠ p := fun e => hp (e ▸ ha)
        simpa using this
      rw [ha]
      simp
    have h2 : togglePlatform (prev ++ [p]) p = prev := by
      rw [togglePlatform_of_mem _ _ hmem, hf]
    rw [h1, h2]
    refine ⟨fun _ => rfl, fun h => absurd h hp, fun n hne => ?_, ?_, fun n => Iff.rfl, hn,
      fun _ => rfl⟩
    · simp [hne]
    · rw [List.nodup_append]
      refine ⟨hn, List.nodup_singleton p, ?_⟩
      intro a ha hb
      rw [List.mem_singleton] at hb
      subst hb
      exact hp ha

/-- Instance of C29: toggling GitHub on the selection GitHub, Twitter. -/
theorem togglePlatform_involution_witness :
    ["GitHub", "Twitter"].Nodup ∧
    togglePlatform ["GitHub", "Twitter"] "GitHub" = ["Twitter"] ∧
    (togglePlatform (togglePlatform ["GitHub", "Twitter"] "GitHub") "GitHub").Nodup ∧
    togglePlatform (togglePlatform ["Twitter"] "GitHub") "GitHub" = ["Twitter"] :=
  have hn : ["GitHub", "Twitter"].Nodup := by decide
  have hn2 : ["Twitter"].Nodup := by decide
  ⟨hn,
    ((togglePlatform_involution ["GitHub", "Twitter"] "GitHub" hn).2.1 (by decide)).1.trans
      (by decide),
    (togglePlatform_involution ["GitHub", "Twitter"] "GitHub" hn).2.2.2.2.2.1,
    (togglePlatform_involution ["Twitter"] "GitHub" hn2).2.2.2.2.2.2 (by decide)⟩

/-! ## Claims on the duration format -/

theorem padStart_two_digits :
    ∀ k : Fin 60,
      padStart (toString ((k : Nat) : Int)) 2 '0' =
        toString (((k : Nat) : Int) / 10) ++ toString (((k : Nat) : Int) % 10) ∧
      (padStart (toString ((k : Nat) : Int)) 2 '0').length = 2 := by
  decide

/-- C30: for every non-negative integer `ms`, `formatDuration(ms)` is `m:ss`, where `m` is the
decimal string of `floor(ms / 60000)` and `ss` is made of exactly two digits, the tens and
the units of `floor((ms mod 60000) / 1000)`, a value between 0 and 59. -/
theorem formatDuration_format (ms : Int) (h0 : 0 ≤ ms) :
    formatDuration ms =
      toString (ms / 60000) ++ ":" ++
        (toString (ms % 60000 / 1000 / 10) ++ toString (ms % 60000 / 1000 % 10)) ∧
    (toString (ms % 60000 / 1000 / 10) ++ toString (ms % 60000 / 1000 % 10)).length = 2 ∧
    0 ≤ ms % 60000 / 1000 ∧ ms % 60000 / 1000 ≤ 59 ∧
    0 ≤ ms % 60000 / 1000 / 10 ∧ ms % 60000 / 1000 / 10 ≤ 5 ∧
    0 ≤ ms % 60000 / 1000 % 10 ∧ ms % 60000 / 1000 % 10 ≤ 9 := by
  have hs0 : 0 ≤ ms % 60000 / 1000 := by omega
  have hs1 : ms % 60000 / 1000 ≤ 59 := by omega
  obtain ⟨k, hk⟩ : ∃ k : Fin 60, ms % 60000 / 1000 = ((k : Nat) : Int) :=
    ⟨⟨(ms % 60000 / 1000).toNat, by omega⟩, by simp only []; omega⟩
  have hpad := padStart_two_digits k
  rw [← hk] at hpad
  refine ⟨?_, ?_, hs0, hs1, by omega, by omega, by omega, by omega⟩
  · simp only [formatDuration]
    rw [Int.fdiv_eq_ediv ms (by decide), Int.tmod_eq_emod h0 (by decide),
      Int.fdiv_eq_ediv _ (by decide), hpad.1]
  · rw [← hpad.1]
    exact hpad.2

/-- Instance of C30: 125500 ms are `2:05`. -/
theorem formatDuration_format_witness :
    (0 : Int) ≤ 125500 ∧ formatDuration 125500 = "2:05" :=
  ⟨by decide, ((formatDuration_format 125500 (by decide)).1).trans (by decide)⟩

end MgNexus
